import Mathlib

/-!
Verification development for the sql2pandas repository
(lexer.py, parser.py, ir_generator.py, advanced_code_generator.py, executor.py).

The pipeline under study is the one wired up in main.py:
text --SQLLexer.tokenize--> tokens --SQLParser.parse--> AST
     --IRGenerator.generate--> IR --AdvancedCodeGenerator.generate--> pandas code
     --PandasExecutor.execute--> result DataFrame.

The generated pandas code is a list of Python source lines that the executor
runs with exec().  We embed that code shallowly: each emitted line (or fixed
block of lines) becomes a constructor of an abstract statement type `Stmt`,
and the executor's exec() becomes a small-step interpreter over a heap of
table objects (the heap makes Python's object identity and in-place column
assignment observable, which the mutation claims need).
-/

namespace SQL2Pandas

/-! ## Tokens (lexer.py, class TokenType / Token) -/

inductive Tk
  | kwSELECT | kwFROM | kwWHERE | kwORDER | kwBY | kwASC | kwDESC
  | kwAND | kwOR | kwNOT
  | kwJOIN | kwINNER | kwLEFT | kwRIGHT | kwFULL | kwOUTER | kwCROSS | kwON
  | kwIN | kwLIKE | kwBETWEEN | kwIS | kwNULL
  | kwCOUNT | kwSUM | kwAVG | kwMAX | kwMIN | kwDISTINCT
  | kwGROUP | kwHAVING | kwLIMIT | kwOFFSET | kwTOP
  | kwEXISTS | kwANY
  | kwCASE | kwWHEN | kwTHEN | kwELSE | kwEND
  | kwROUND | kwFLOOR | kwCEIL | kwABS
  | kwUPPER | kwLOWER | kwCONCAT | kwLENGTH | kwSUBSTRING
  | kwUNION | kwINTERSECT | kwEXCEPT | kwALL
  | kwINSERT | kwUPDATE | kwDELETE | kwINTO | kwVALUES | kwSET
  | opEQUALS | opNOT_EQUALS | opLESS_THAN | opGREATER_THAN
  | opLESS_EQUAL | opGREATER_EQUAL
  | opPLUS | opMINUS | opMULTIPLY | opDIVIDE
  | litIDENTIFIER | litNUMBER | litSTRING
  | pCOMMA | pSEMICOLON | pLPAREN | pRPAREN | pASTERISK | pDOT
  deriving DecidableEq, Repr

structure Token where
  type : Tk
  value : String
  lineno : Nat
  col : Nat
  deriving DecidableEq, Repr

/-! ## Lexer (lexer.py, SQLLexer.tokenize) -/

/-- The keyword table of SQLLexer.__init__ (`self.keywords`). -/
def keywordTable : List (String × Tk) :=
  [("SELECT", .kwSELECT), ("FROM", .kwFROM), ("WHERE", .kwWHERE),
   ("ORDER", .kwORDER), ("BY", .kwBY), ("ASC", .kwASC), ("DESC", .kwDESC),
   ("AND", .kwAND), ("OR", .kwOR), ("NOT", .kwNOT),
   ("JOIN", .kwJOIN), ("INNER", .kwINNER), ("LEFT", .kwLEFT),
   ("RIGHT", .kwRIGHT), ("FULL", .kwFULL), ("OUTER", .kwOUTER),
   ("CROSS", .kwCROSS), ("ON", .kwON),
   ("IN", .kwIN), ("LIKE", .kwLIKE), ("BETWEEN", .kwBETWEEN),
   ("IS", .kwIS), ("NULL", .kwNULL),
   ("COUNT", .kwCOUNT), ("SUM", .kwSUM), ("AVG", .kwAVG), ("MAX", .kwMAX),
   ("MIN", .kwMIN), ("DISTINCT", .kwDISTINCT),
   ("GROUP", .kwGROUP), ("HAVING", .kwHAVING),
   ("LIMIT", .kwLIMIT), ("OFFSET", .kwOFFSET), ("TOP", .kwTOP),
   ("EXISTS", .kwEXISTS), ("ANY", .kwANY),
   ("CASE", .kwCASE), ("WHEN", .kwWHEN), ("THEN", .kwTHEN),
   ("ELSE", .kwELSE), ("END", .kwEND),
   ("ROUND", .kwROUND), ("FLOOR", .kwFLOOR), ("CEIL", .kwCEIL),
   ("ABS", .kwABS),
   ("UPPER", .kwUPPER), ("LOWER", .kwLOWER), ("CONCAT", .kwCONCAT),
   ("LENGTH", .kwLENGTH), ("SUBSTRING", .kwSUBSTRING),
   ("UNION", .kwUNION), ("INTERSECT", .kwINTERSECT), ("EXCEPT", .kwEXCEPT),
   ("ALL", .kwALL),
   ("INSERT", .kwINSERT), ("UPDATE", .kwUPDATE), ("DELETE", .kwDELETE),
   ("INTO", .kwINTO), ("VALUES", .kwVALUES), ("SET", .kwSET)]

/-- `self.keywords.get(value.upper(), IDENTIFIER)`: look the upper-cased
lexeme up in the keyword table, missing entries are identifiers. -/
def keywordLookup (s : String) : Tk :=
  ((keywordTable.find? (fun p => p.1 = s)).map (fun p => p.2)).getD .litIDENTIFIER

/-- Two-character operator table (the 2-character keys of `self.operators`). -/
def twoCharOp (c1 c2 : Char) : Option Tk :=
  if c1 = '!' ∧ c2 = '=' then some .opNOT_EQUALS
  else if c1 = '<' ∧ c2 = '>' then some .opNOT_EQUALS
  else if c1 = '<' ∧ c2 = '=' then some .opLESS_EQUAL
  else if c1 = '>' ∧ c2 = '=' then some .opGREATER_EQUAL
  else none

/-- Single-character keys of `self.operators`. -/
def oneCharOp (c : Char) : Option Tk :=
  if c = '=' then some .opEQUALS
  else if c = '<' then some .opLESS_THAN
  else if c = '>' then some .opGREATER_THAN
  else if c = '+' then some .opPLUS
  else if c = '-' then some .opMINUS
  else if c = '/' then some .opDIVIDE
  else none

/-- `self.punctuation`. -/
def punctOp (c : Char) : Option Tk :=
  if c = ',' then some .pCOMMA
  else if c = ';' then some .pSEMICOLON
  else if c = '(' then some .pLPAREN
  else if c = ')' then some .pRPAREN
  else if c = '*' then some .pASTERISK
  else if c = '.' then some .pDOT
  else none

/-- Python str.isdigit restricted to ASCII (the grammar only uses ASCII). -/
def isDigitC (c : Char) : Bool := c.isDigit

/-- Python str.isalpha restricted to ASCII. -/
def isAlphaC (c : Char) : Bool := c.isAlpha

def isAlnumU (c : Char) : Bool := c.isAlpha || c.isDigit || c = '_'

def isNumChar (c : Char) : Bool := c.isDigit || c = '.'

/-- Result of one iteration of the tokenize character loop. -/
inductive LexAct
  /-- whitespace: skip one character -/
  | skip
  /-- emit a token with this type and lexeme, continue on `rest` -/
  | emit (t : Tk) (lexeme : List Char) (rest : List Char)
  /-- the "Unexpected character" ValueError -/
  | err
  deriving Repr

/-- The body of the character loop of SQLLexer.tokenize, as a pure
classification of the next characters `c :: cs` of the line: whitespace
skipping, two-character operators (tried first, only when two characters
remain), single-character operators, punctuation, string literals (closing
quote included in the lexeme when present, otherwise the rest of the line),
numeric literals (a digit followed greedily by digits and dots), identifiers
and keywords, and the unexpected-character error. -/
def lexStep (c : Char) (cs : List Char) : LexAct :=
  if c.isWhitespace then .skip
  else
    match (match cs with | c2 :: _ => twoCharOp c c2 | [] => none) with
    | some t => .emit t (c :: cs.take 1) (cs.drop 1)
    | none =>
      match oneCharOp c with
      | some t => .emit t [c] cs
      | none =>
        match punctOp c with
        | some t => .emit t [c] cs
        | none =>
          if c = '"' ∨ c = '\'' then
            match cs.drop (cs.takeWhile (fun d => d ≠ c)).length with
            | _ :: r => .emit .litSTRING (c :: cs.takeWhile (fun d => d ≠ c) ++ [c]) r
            | [] => .emit .litSTRING (c :: cs.takeWhile (fun d => d ≠ c)) []
          else if isDigitC c then
            .emit .litNUMBER (c :: cs.takeWhile isNumChar)
              (cs.drop (cs.takeWhile isNumChar).length)
          else if isAlphaC c ∨ c = '_' then
            .emit .litIDENTIFIER (c :: cs.takeWhile isAlnumU)
              (cs.drop (cs.takeWhile isAlnumU).length)
          else .err

/-- Python str.upper on the character list (ASCII, as the source uses it). -/
def strUpper (s : String) : String := String.mk (s.toList.map Char.toUpper)

/-- Python str.lower on the character list. -/
def strLower (s : String) : String := String.mk (s.toList.map Char.toLower)

/-- Python `c in s` membership test on the character list. -/
def strContainsCh (s : String) (c : Char) : Bool := s.toList.contains c

/-- Decimal accumulation of a digit list. -/
def natOfDigits : List Char → Nat → Nat
  | [], acc => acc
  | c :: cs, acc => natOfDigits cs (acc * 10 + (c.toNat - 48))

/-- Python int() applied to a digit-only lexeme: the number, or a failure
marker for anything the lexer can emit that is not all digits. -/
def strToNat (s : String) : Option Nat :=
  if s.toList ≠ [] ∧ s.toList.all isDigitC then some (natOfDigits s.toList 0)
  else none

/-- Python str.split on a single separator character. -/
def splitCh (sep : Char) : List Char → List (List Char)
  | [] => [[]]
  | c :: cs =>
    let r := splitCh sep cs
    if c = sep then [] :: r
    else
      match r with
      | [] => [[c]]
      | g :: gs => (c :: g) :: gs

/-- The tokenize loop over one line. `fuel` bounds the number of iterations;
each iteration consumes at least one character, so `cs.length + 1` is always
enough. Keywords are resolved from the identifier lexeme exactly as the
source does (`self.keywords.get(value.upper(), IDENTIFIER)`). -/
def scanLine (lineno : Nat) : Nat → List Char → Nat → Except String (List Token)
  | 0, _, _ => .error "out of fuel"
  | _ + 1, [], _ => .ok []
  | fuel + 1, c :: cs, col =>
    match lexStep c cs with
    | .skip => scanLine lineno fuel cs (col + 1)
    | .emit t lexeme rest =>
      match scanLine lineno fuel rest (col + (String.mk lexeme).length) with
      | .error e => .error e
      | .ok restToks =>
        .ok (⟨(if t = .litIDENTIFIER then keywordLookup (strUpper (String.mk lexeme))
               else t), String.mk lexeme, lineno, col⟩ :: restToks)
    | .err => .error "Unexpected character"

/-- The per-line loop of SQLLexer.tokenize (lines are numbered from 1). -/
def tokenizeLines : Nat → List String → Except String (List Token)
  | _, [] => .ok []
  | lineno, l :: ls =>
    match scanLine lineno (l.toList.length + 1) l.toList 0 with
    | .error e => .error e
    | .ok toks =>
      match tokenizeLines (lineno + 1) ls with
      | .error e => .error e
      | .ok rest => .ok (toks ++ rest)

/-- Python text.split(chr(10)): split the character list on newlines
(an executable model of the split used by tokenize). -/
def splitLinesCh : List Char → List (List Char)
  | [] => [[]]
  | c :: cs =>
    let r := splitLinesCh cs
    if c = '\n' then [] :: r
    else
      match r with
      | l :: ls => (c :: l) :: ls
      | [] => [[c]]

/-- SQLLexer.tokenize: split on newlines, scan each line, concatenate. -/
def tokenize (text : String) : Except String (List Token) :=
  tokenizeLines 1 ((splitLinesCh text.toList).map String.mk)

/-! ## AST (parser.py dataclasses) -/

/-- Values produced by SQLParser.parse_value: Python int, float or str
(floats are modelled as rationals; the grammar only produces finite
decimals). Qualified column references come back as strings. -/
inductive SqlVal
  | i (n : Int)
  | f (q : Rat)
  | s (v : String)
  deriving DecidableEq, Repr

/-- The right-hand side stored in a comparison Condition: a scalar value,
a list (IN, BETWEEN), or Python None (IS NULL forms). -/
inductive CondRhs
  | val (v : SqlVal)
  | list (vs : List SqlVal)
  | null
  deriving DecidableEq, Repr

/-- parser.py Condition. A logical node has a Condition on the left
(`isinstance(condition.left, Condition)` is how ir_generator.py tells the
two shapes apart), a comparison leaf has a column string. The unused
`logical_op`/`next_condition` fields are omitted. -/
inductive Cond
  | logical (left : Cond) (op : String) (right : Cond)
  | cmp (column : String) (op : String) (rhs : CondRhs)
  deriving DecidableEq, Repr

/-- parser.py Expression (type/value/arguments/conditions). Literal values
keep the raw token lexeme, as parse_expression stores `token.value`
unconverted. `conditions` holds the (when, then) pairs of a CASE;
`arguments` holds function arguments, or the ELSE expression of a CASE. -/
inductive Expr
  | caseE (value : Option String) (conditions : List (Expr × Expr))
          (arguments : Option Expr)
  | function (value : String) (arguments : List Expr)
  | column (value : String)
  | literal (value : String)
  deriving Repr

structure ColumnA where
  name : String
  aliasN : Option String := none
  function : Option String := none
  tableAlias : Option String := none
  expression : Option Expr := none
  deriving Repr

/-- parser.py JoinClause. -/
structure JoinA where
  joinType : String
  table : String
  onCondition : Option Cond
  aliasN : Option String := none
  deriving DecidableEq, Repr

/-- parser.py FromClause; `joins = None` is modelled as the empty list
(the IR generator treats both identically). -/
structure FromA where
  table : String
  aliasN : Option String := none
  joins : List JoinA := []
  deriving DecidableEq, Repr

structure OrderColA where
  column : String
  direction : String := "ASC"
  deriving DecidableEq, Repr

structure LimitA where
  count : Int
  offset : Option Int := none
  deriving DecidableEq, Repr

mutual
/-- parser.py SelectStatement (set_operations = None is the empty list). -/
inductive SelectA
  | mk (distinct : Bool) (columns : List ColumnA) (fromClause : FromA)
       (whereC : Option Cond) (groupByC : Option (List String))
       (havingC : Option Cond) (orderC : Option (List OrderColA))
       (limitC : Option LimitA) (setOps : List SetOpA)

/-- parser.py SetOperation. -/
inductive SetOpA
  | mk (opType : String) (allFlag : Bool) (rightQuery : SelectA)
end

def SelectA.distinct : SelectA → Bool | ⟨d, _, _, _, _, _, _, _, _⟩ => d
def SelectA.columns : SelectA → List ColumnA | ⟨_, c, _, _, _, _, _, _, _⟩ => c
def SelectA.fromClause : SelectA → FromA | ⟨_, _, f, _, _, _, _, _, _⟩ => f
def SelectA.whereC : SelectA → Option Cond | ⟨_, _, _, w, _, _, _, _, _⟩ => w
def SelectA.groupByC : SelectA → Option (List String) | ⟨_, _, _, _, g, _, _, _, _⟩ => g
def SelectA.havingC : SelectA → Option Cond | ⟨_, _, _, _, _, h, _, _, _⟩ => h
def SelectA.orderC : SelectA → Option (List OrderColA) | ⟨_, _, _, _, _, _, o, _, _⟩ => o
def SelectA.limitC : SelectA → Option LimitA | ⟨_, _, _, _, _, _, _, l, _⟩ => l
def SelectA.setOps : SelectA → List SetOpA | ⟨_, _, _, _, _, _, _, _, s⟩ => s

/-! ## Parser (parser.py, SQLParser) -/

def curTok (ts : List Token) (pos : Nat) : Option Token := ts.get? pos

def peekTok (ts : List Token) (pos : Nat) : Option Token := ts.get? (pos + 1)

/-- SQLParser.consume. -/
def consumeTk (ts : List Token) (pos : Nat) (expected : Option Tk) :
    Except String (Token × Nat) :=
  match ts.get? pos with
  | none => .error "ParseError: Unexpected end of input"
  | some t =>
    match expected with
    | some e =>
      if t.type = e then .ok (t, pos + 1) else .error "ParseError: Expected token"
    | none => .ok (t, pos + 1)

/-- Python int() on a lexeme (digits only, else ValueError). -/
def pyInt (s : String) : Except String Int :=
  match strToNat s with
  | some n => .ok (n : Int)
  | none => .error "ValueError: invalid int literal"

/-- Python float() on a numeric lexeme (digits with exactly one dot;
anything else from the lexer, such as two dots, raises ValueError). -/
def pyFloat (s : String) : Except String Rat :=
  match splitCh '.' s.toList with
  | [a, b] =>
    match strToNat (String.mk a) with
    | some n =>
      if b.isEmpty then .ok (n : Rat)
      else match strToNat (String.mk b) with
        | some m => .ok ((n : Rat) + (m : Rat) / ((10 : Rat) ^ b.length))
        | none => .error "ValueError: invalid float literal"
    | none => .error "ValueError: invalid float literal"
  | _ => .error "ValueError: invalid float literal"

def isQuoteChar (c : Char) : Bool := c = '"' ∨ c = '\''

/-- Python str.strip with both quote characters. -/
def stripQuotes (s : String) : String :=
  String.mk (((s.toList.dropWhile isQuoteChar).reverse.dropWhile isQuoteChar).reverse)

/-- SQLParser.parse_value. -/
def parseValue (ts : List Token) (pos : Nat) : Except String (SqlVal × Nat) :=
  match curTok ts pos with
  | none => .error "AttributeError: token is None"
  | some t =>
    if t.type = .litNUMBER then
      if strContainsCh t.value '.' then do
        let q ← pyFloat t.value
        return (.f q, pos + 1)
      else do
        let n ← pyInt t.value
        return (.i n, pos + 1)
    else if t.type = .litSTRING then
      .ok (.s (stripQuotes t.value), pos + 1)
    else if t.type = .litIDENTIFIER then
      -- table.column handling peeks at the value of the next token
      match peekTok ts pos with
      | some p =>
        if p.value = "." then do
          let (colTok, pos) ← consumeTk ts (pos + 2) (some .litIDENTIFIER)
          return (.s (t.value ++ "." ++ colTok.value), pos)
        else .ok (.s t.value, pos + 1)
      | none => .ok (.s t.value, pos + 1)
    else .error "ParseError: Expected value"

/-- SQLParser.parse_alias (never fails; may consume 0, 1 or 2 tokens). -/
def parseAlias (ts : List Token) (pos : Nat) : Option String × Nat :=
  match curTok ts pos with
  | none => (none, pos)
  | some t =>
    if (strUpper t.value) = "AS" then
      match curTok ts (pos + 1) with
      | some t2 =>
        if t2.type = .litIDENTIFIER then (some t2.value, pos + 2) else (none, pos + 1)
      | none => (none, pos + 1)
    else if t.type = .litIDENTIFIER ∧
        (strUpper t.value) ∉ ["FROM", "WHERE", "GROUP", "ORDER", "HAVING", "LIMIT",
                           "JOIN", "INNER", "LEFT", "RIGHT"] then
      (some t.value, pos + 1)
    else (none, pos)

/-- The table.column continuation used by parse_aggregate_column and the
identifier branch of parse_expression: if the current token is a DOT,
consume it and the following identifier. -/
def parseDotSuffix (ts : List Token) (base : String) (pos : Nat) :
    Except String (String × Nat) :=
  match curTok ts pos with
  | some d =>
    if d.type = .pDOT then do
      let (_, pos) ← consumeTk ts pos (some .pDOT)
      let (c2, pos) ← consumeTk ts pos (some .litIDENTIFIER)
      return (base ++ "." ++ c2.value, pos)
    else .ok (base, pos)
  | none => .ok (base, pos)

/-- Token types accepted as aggregate function heads. -/
def isAggTk (t : Tk) : Bool :=
  t = .kwCOUNT ∨ t = .kwSUM ∨ t = .kwAVG ∨ t = .kwMAX ∨ t = .kwMIN

/-- The left operand of parse_basic_condition: an aggregate reference such
as COUNT(*) or COUNT(col), or a plain identifier. -/
def parseCmpLeft (ts : List Token) (pos : Nat) : Except String (String × Nat) :=
  match curTok ts pos with
  | some t =>
    if isAggTk t.type then do
      let (fnTok, pos) ← consumeTk ts pos none
      let (_, pos) ← consumeTk ts pos (some .pLPAREN)
      match curTok ts pos with
      | some a =>
        if a.type = .pASTERISK then do
          let (_, pos) ← consumeTk ts pos (some .pASTERISK)
          let (_, pos) ← consumeTk ts pos (some .pRPAREN)
          return (fnTok.value ++ "(*)", pos)
        else if a.type = .litIDENTIFIER then do
          let (colTok, pos) ← consumeTk ts pos (some .litIDENTIFIER)
          let (_, pos) ← consumeTk ts pos (some .pRPAREN)
          return (fnTok.value ++ "(" ++ colTok.value ++ ")", pos)
        else .error "ParseError: Expected column name or asterisk"
      | none => .error "ParseError: Expected column name or asterisk"
    else do
      let (tok, pos) ← consumeTk ts pos (some .litIDENTIFIER)
      return (tok.value, pos)
  | none => .error "ParseError: Unexpected end of input in condition"

/-- The table.column continuation of parse_basic_condition. Unlike
parseDotSuffix this tests the token value against the dot character,
mirroring the source. -/
def parseCmpDotSuffix (ts : List Token) (left : String) (pos : Nat) :
    Except String (String × Nat) :=
  match curTok ts pos with
  | some t =>
    if t.value = "." then do
      let (_, pos) ← consumeTk ts pos none
      let (colTok, pos) ← consumeTk ts pos (some .litIDENTIFIER)
      return (left ++ "." ++ colTok.value, pos)
    else .ok (left, pos)
  | none => .ok (left, pos)

/-- Token types accepted as scalar function heads in parse_column. -/
def isFnTk (t : Tk) : Bool :=
  t = .kwROUND ∨ t = .kwFLOOR ∨ t = .kwCEIL ∨ t = .kwABS ∨
  t = .kwUPPER ∨ t = .kwLOWER ∨ t = .kwCONCAT ∨ t = .kwLENGTH

def isRelOpTk (t : Tk) : Bool :=
  t = .opEQUALS ∨ t = .opNOT_EQUALS ∨ t = .opLESS_THAN ∨
  t = .opGREATER_THAN ∨ t = .opLESS_EQUAL ∨ t = .opGREATER_EQUAL

def isSetOpTk (t : Tk) : Bool :=
  t = .kwUNION ∨ t = .kwINTERSECT ∨ t = .kwEXCEPT

def isJoinStartTk (t : Tk) : Bool :=
  t = .kwJOIN ∨ t = .kwINNER ∨ t = .kwLEFT ∨ t = .kwRIGHT ∨ t = .kwFULL

def isJoinKindTk (t : Tk) : Bool :=
  t = .kwINNER ∨ t = .kwLEFT ∨ t = .kwRIGHT ∨ t = .kwFULL ∨ t = .kwCROSS

/-- SQLParser.parse_regular_column (does not need fuel). -/
def parseRegularColumn (ts : List Token) (pos : Nat) : Except String (ColumnA × Nat) := do
  let (tok, pos) ← consumeTk ts pos (some .litIDENTIFIER)
  match curTok ts pos with
  | some d =>
    if d.type = .pDOT then do
      let (_, pos) ← consumeTk ts pos (some .pDOT)
      let (c2, pos) ← consumeTk ts pos (some .litIDENTIFIER)
      let (aliasN, pos) := parseAlias ts pos
      return ({ name := c2.value, tableAlias := some tok.value, aliasN := aliasN }, pos)
    else do
      let (aliasN, pos) := parseAlias ts pos
      return ({ name := tok.value, aliasN := aliasN }, pos)
  | none => do
    let (aliasN, pos) := parseAlias ts pos
    return ({ name := tok.value, aliasN := aliasN }, pos)


mutual

/-- SQLParser.parse_query_with_set_operations. -/
def parseQuerySetOps (ts : List Token) : Nat → Nat → Except String (SelectA × Nat)
  | 0, _ => .error "out of fuel"
  | fuel + 1, pos => do
    let (left, pos) ← parseSelectStmt ts fuel pos
    let (ops, pos) ← parseSetOpsLoop ts fuel pos
    match ops with
    | [] => return (left, pos)
    | _ =>
      let ⟨d, c, f, w, g, h, o, l, _⟩ := left
      return (⟨d, c, f, w, g, h, o, l, ops⟩, pos)

/-- The set-operation while-loop of parse_query_with_set_operations. -/
def parseSetOpsLoop (ts : List Token) : Nat → Nat → Except String ((List SetOpA) × Nat)
  | 0, _ => .error "out of fuel"
  | fuel + 1, pos =>
    match curTok ts pos with
    | some t =>
      if isSetOpTk t.type then do
        let (opTok, pos) ← consumeTk ts pos none
        let (allFlag, pos) :=
          match curTok ts pos with
          | some t2 =>
            if t2.type = .kwALL ∨ (t2.type = .litIDENTIFIER ∧ (strUpper t2.value) = "ALL")
            then (true, pos + 1) else (false, pos)
          | none => (false, pos)
        let (right, pos) ← parseSelectStmt ts fuel pos
        let (rest, pos) ← parseSetOpsLoop ts fuel pos
        return (SetOpA.mk (strUpper opTok.value) allFlag right :: rest, pos)
      else .ok ([], pos)
    | none => .ok ([], pos)

termination_by structural fuel _ => fuel
/-- SQLParser.parse_select_statement. -/
def parseSelectStmt (ts : List Token) : Nat → Nat → Except String (SelectA × Nat)
  | 0, _ => .error "out of fuel"
  | fuel + 1, pos => do
    let (_, pos) ← consumeTk ts pos (some .kwSELECT)
    let (distinct, pos) :=
      match curTok ts pos with
      | some t => if t.type = .kwDISTINCT then (true, pos + 1) else (false, pos)
      | none => (false, pos)
    let (cols, pos) ← parseColumnList ts fuel pos
    let (fc, pos) ← parseFromClause ts fuel pos
    let (w, pos) ← parseWhereOpt ts fuel pos
    let (g, pos) ← parseGroupOpt ts fuel pos
    let (h, pos) ← parseHavingOpt ts fuel pos
    let (o, pos) ← parseOrderOpt ts fuel pos
    let (l, pos) ← parseLimitOpt ts fuel pos
    return (⟨distinct, cols, fc, w, g, h, o, l, []⟩, pos)

/-- The optional WHERE clause of parse_select_statement
(parse_where_clause inlined). -/
def parseWhereOpt (ts : List Token) : Nat → Nat → Except String ((Option Cond) × Nat)
  | 0, _ => .error "out of fuel"
  | fuel + 1, pos =>
    match curTok ts pos with
    | some t =>
      if t.type = .kwWHERE then do
        let (_, pos) ← consumeTk ts pos (some .kwWHERE)
        let (c, pos) ← parseCondition ts fuel pos
        return (some c, pos)
      else .ok (none, pos)
    | none => .ok (none, pos)

/-- The optional GROUP BY clause of parse_select_statement. -/
def parseGroupOpt (ts : List Token) : Nat → Nat → Except String ((Option (List String)) × Nat)
  | 0, _ => .error "out of fuel"
  | fuel + 1, pos =>
    match curTok ts pos with
    | some t =>
      if t.type = .kwGROUP then do
        let (cs, pos) ← parseGroupByClause ts fuel pos
        return (some cs, pos)
      else .ok (none, pos)
    | none => .ok (none, pos)

/-- The optional HAVING clause of parse_select_statement
(parse_having_clause inlined). -/
def parseHavingOpt (ts : List Token) : Nat → Nat → Except String ((Option Cond) × Nat)
  | 0, _ => .error "out of fuel"
  | fuel + 1, pos =>
    match curTok ts pos with
    | some t =>
      if t.type = .kwHAVING then do
        let (_, pos) ← consumeTk ts pos (some .kwHAVING)
        let (c, pos) ← parseCondition ts fuel pos
        return (some c, pos)
      else .ok (none, pos)
    | none => .ok (none, pos)

/-- The optional ORDER BY clause of parse_select_statement. -/
def parseOrderOpt (ts : List Token) : Nat → Nat → Except String ((Option (List OrderColA)) × Nat)
  | 0, _ => .error "out of fuel"
  | fuel + 1, pos =>
    match curTok ts pos with
    | some t =>
      if t.type = .kwORDER then do
        let (cs, pos) ← parseOrderClause ts fuel pos
        return (some cs, pos)
      else .ok (none, pos)
    | none => .ok (none, pos)

/-- The optional LIMIT clause of parse_select_statement. -/
def parseLimitOpt (ts : List Token) : Nat → Nat → Except String ((Option LimitA) × Nat)
  | 0, _ => .error "out of fuel"
  | fuel + 1, pos =>
    match curTok ts pos with
    | some t =>
      if t.type = .kwLIMIT then do
        let (lc, pos) ← parseLimitClause ts fuel pos
        return (some lc, pos)
      else .ok (none, pos)
    | none => .ok (none, pos)

/-- SQLParser.parse_column_list. -/
def parseColumnList (ts : List Token) : Nat → Nat → Except String ((List ColumnA) × Nat)
  | 0, _ => .error "out of fuel"
  | fuel + 1, pos =>
    match curTok ts pos with
    | some t =>
      if t.type = .pASTERISK then do
        let (_, pos) ← consumeTk ts pos (some .pASTERISK)
        return ([{ name := "*" }], pos)
      else do
        let (c, pos) ← parseColumn ts fuel pos
        let (rest, pos) ← parseColumnListRest ts fuel pos
        return (c :: rest, pos)
    | none => do
      let (c, pos) ← parseColumn ts fuel pos
      let (rest, pos) ← parseColumnListRest ts fuel pos
      return (c :: rest, pos)

/-- The comma while-loop of parse_column_list. -/
def parseColumnListRest (ts : List Token) : Nat → Nat → Except String ((List ColumnA) × Nat)
  | 0, _ => .error "out of fuel"
  | fuel + 1, pos =>
    match curTok ts pos with
    | some t =>
      if t.type = .pCOMMA then do
        let (_, pos) ← consumeTk ts pos (some .pCOMMA)
        let (c, pos) ← parseColumn ts fuel pos
        let (rest, pos) ← parseColumnListRest ts fuel pos
        return (c :: rest, pos)
      else .ok ([], pos)
    | none => .ok ([], pos)

termination_by structural fuel _ => fuel
/-- SQLParser.parse_column. -/
def parseColumn (ts : List Token) : Nat → Nat → Except String (ColumnA × Nat)
  | 0, _ => .error "out of fuel"
  | fuel + 1, pos =>
    match curTok ts pos with
    | some t =>
      if isFnTk t.type then parseFunctionColumn ts fuel pos
      else if isAggTk t.type then parseAggregateColumn ts fuel pos
      else if t.type = .kwCASE then parseCaseColumn ts fuel pos
      else parseRegularColumn ts pos
    | none => parseRegularColumn ts pos

/-- SQLParser.parse_function_column. -/
def parseFunctionColumn (ts : List Token) : Nat → Nat → Except String (ColumnA × Nat)
  | 0, _ => .error "out of fuel"
  | fuel + 1, pos => do
    let (fnTok, pos) ← consumeTk ts pos none
    let (_, pos) ← consumeTk ts pos (some .pLPAREN)
    let (args, pos) ← parseFnArgs ts fuel pos
    let (_, pos) ← consumeTk ts pos (some .pRPAREN)
    let (aliasN, pos) := parseAlias ts pos
    return ({ name := fnTok.value ++ "(...)",
              expression := some (.function fnTok.value args),
              aliasN := aliasN }, pos)

/-- The (possibly empty) argument list of parse_function_column. -/
def parseFnArgs (ts : List Token) : Nat → Nat → Except String ((List Expr) × Nat)
  | 0, _ => .error "out of fuel"
  | fuel + 1, pos =>
    match curTok ts pos with
    | some t =>
      if t.type ≠ .pRPAREN then do
        let (a, pos) ← parseExprFn ts fuel pos
        let (rest, pos) ← parseExprArgsLoop ts fuel pos
        return (a :: rest, pos)
      else .ok ([], pos)
    | none => .error "AttributeError: token is None"

/-- The comma while-loop of parse_function_column arguments. -/
def parseExprArgsLoop (ts : List Token) : Nat → Nat → Except String ((List Expr) × Nat)
  | 0, _ => .error "out of fuel"
  | fuel + 1, pos =>
    match curTok ts pos with
    | some t =>
      if t.type = .pCOMMA then do
        let (_, pos) ← consumeTk ts pos (some .pCOMMA)
        let (a, pos) ← parseExprFn ts fuel pos
        let (rest, pos) ← parseExprArgsLoop ts fuel pos
        return (a :: rest, pos)
      else .ok ([], pos)
    | none => .ok ([], pos)

termination_by structural fuel _ => fuel
/-- SQLParser.parse_aggregate_column. -/
def parseAggregateColumn (ts : List Token) : Nat → Nat → Except String (ColumnA × Nat)
  | 0, _ => .error "out of fuel"
  | fuel + 1, pos => do
    let (fnTok, pos) ← consumeTk ts pos none
    let (_, pos) ← consumeTk ts pos (some .pLPAREN)
    match curTok ts pos with
    | none => .error "AttributeError: token is None"
    | some t =>
      if t.type = .pASTERISK then do
        let (_, pos) ← consumeTk ts pos (some .pASTERISK)
        let (_, pos) ← consumeTk ts pos (some .pRPAREN)
        let (aliasN, pos) := parseAlias ts pos
        return ({ name := "*", function := some fnTok.value, aliasN := aliasN }, pos)
      else if t.type = .kwDISTINCT then do
        let (_, pos) ← consumeTk ts pos (some .kwDISTINCT)
        let (colTok, pos) ← consumeTk ts pos (some .litIDENTIFIER)
        let (_, pos) ← consumeTk ts pos (some .pRPAREN)
        let (aliasN, pos) := parseAlias ts pos
        return ({ name := "DISTINCT " ++ colTok.value,
                  function := some fnTok.value, aliasN := aliasN }, pos)
      else if t.type = .kwCASE then do
        let (caseExpr, pos) ← parseCaseExpr ts fuel pos
        let (_, pos) ← consumeTk ts pos (some .pRPAREN)
        let (aliasN, pos) := parseAlias ts pos
        return ({ name := fnTok.value ++ "(CASE)",
                  expression := some (.function fnTok.value [caseExpr]),
                  aliasN := aliasN }, pos)
      else do
        let (colTok, pos) ← consumeTk ts pos (some .litIDENTIFIER)
        let (colName, pos) ← parseDotSuffix ts colTok.value pos
        let (_, pos) ← consumeTk ts pos (some .pRPAREN)
        let (aliasN, pos) := parseAlias ts pos
        return ({ name := colName, function := some fnTok.value, aliasN := aliasN }, pos)

/-- SQLParser.parse_case_column. -/
def parseCaseColumn (ts : List Token) : Nat → Nat → Except String (ColumnA × Nat)
  | 0, _ => .error "out of fuel"
  | fuel + 1, pos => do
    let (caseExpr, pos) ← parseCaseExpr ts fuel pos
    let (aliasN, pos) := parseAlias ts pos
    return ({ name := "CASE_EXPR", expression := some caseExpr, aliasN := aliasN }, pos)

/-- SQLParser.parse_expression. -/
def parseExprFn (ts : List Token) : Nat → Nat → Except String (Expr × Nat)
  | 0, _ => .error "out of fuel"
  | fuel + 1, pos =>
    match curTok ts pos with
    | none => .error "AttributeError: token is None"
    | some t =>
      if t.type = .kwCASE then parseCaseExpr ts fuel pos
      else if isAggTk t.type then do
        let (fnTok, pos) ← consumeTk ts pos none
        let (_, pos) ← consumeTk ts pos (some .pLPAREN)
        let (arg, pos) ← parseAggArg ts fuel pos
        let (_, pos) ← consumeTk ts pos (some .pRPAREN)
        return (.function fnTok.value [arg], pos)
      else if t.type = .litIDENTIFIER then do
        let (tok, pos) ← consumeTk ts pos none
        match curTok ts pos with
        | some d =>
          if d.type = .pDOT then do
            let (_, pos) ← consumeTk ts pos (some .pDOT)
            let (c2, pos) ← consumeTk ts pos (some .litIDENTIFIER)
            return (.column (tok.value ++ "." ++ c2.value), pos)
          else return (.column tok.value, pos)
        | none => return (.column tok.value, pos)
      else if t.type = .litNUMBER ∨ t.type = .litSTRING then do
        let (tok, pos) ← consumeTk ts pos none
        return (.literal tok.value, pos)
      else .error "ParseError: Unexpected token in expression"

termination_by structural fuel _ => fuel
/-- The aggregate argument of the aggregate branch of parse_expression:
an asterisk literal or a nested expression. -/
def parseAggArg (ts : List Token) : Nat → Nat → Except String (Expr × Nat)
  | 0, _ => .error "out of fuel"
  | fuel + 1, pos =>
    match curTok ts pos with
    | some a =>
      if a.type = .pASTERISK then do
        let (_, pos) ← consumeTk ts pos (some .pASTERISK)
        return (Expr.literal "*", pos)
      else parseExprFn ts fuel pos
    | none => .error "AttributeError: token is None"

termination_by structural fuel _ => fuel
/-- SQLParser.parse_case_expression. -/
def parseCaseExpr (ts : List Token) : Nat → Nat → Except String (Expr × Nat)
  | 0, _ => .error "out of fuel"
  | fuel + 1, pos => do
    let (_, pos) ← consumeTk ts pos (some .kwCASE)
    -- simple CASE subject column (current token must exist, as the source
    -- reads its type unconditionally)
    let (caseColumn, pos) ←
      (match curTok ts pos with
       | some t =>
         if t.type = .litIDENTIFIER then Except.ok ((some t.value : Option String), pos + 1)
         else Except.ok (none, pos)
       | none => Except.error "AttributeError: token is None")
    let (conds, pos) ← parseCaseWhenLoop ts fuel pos
    let (elseE, pos) ← parseCaseElseOpt ts fuel pos
    let (_, pos) ← consumeTk ts pos (some .kwEND)
    return (.caseE caseColumn conds elseE, pos)

termination_by structural fuel _ => fuel
/-- The optional ELSE expression of parse_case_expression. -/
def parseCaseElseOpt (ts : List Token) : Nat → Nat → Except String ((Option Expr) × Nat)
  | 0, _ => .error "out of fuel"
  | fuel + 1, pos =>
    match curTok ts pos with
    | some t =>
      if t.type = .kwELSE then do
        let (_, pos) ← consumeTk ts pos (some .kwELSE)
        let (e, pos) ← parseExprFn ts fuel pos
        return (some e, pos)
      else .ok (none, pos)
    | none => .ok (none, pos)

termination_by structural fuel _ => fuel
/-- The WHEN while-loop of parse_case_expression. -/
def parseCaseWhenLoop (ts : List Token) : Nat → Nat → Except String ((List (Expr × Expr)) × Nat)
  | 0, _ => .error "out of fuel"
  | fuel + 1, pos =>
    match curTok ts pos with
    | some t =>
      if t.type = .kwWHEN then do
        let (_, pos) ← consumeTk ts pos (some .kwWHEN)
        let (w, pos) ← parseExprFn ts fuel pos
        let (_, pos) ← consumeTk ts pos (some .kwTHEN)
        let (th, pos) ← parseExprFn ts fuel pos
        let (rest, pos) ← parseCaseWhenLoop ts fuel pos
        return ((w, th) :: rest, pos)
      else .ok ([], pos)
    | none => .ok ([], pos)

termination_by structural fuel _ => fuel
/-- SQLParser.parse_from_clause. -/
def parseFromClause (ts : List Token) : Nat → Nat → Except String (FromA × Nat)
  | 0, _ => .error "out of fuel"
  | fuel + 1, pos => do
    let (_, pos) ← consumeTk ts pos (some .kwFROM)
    let (tblTok, pos) ← consumeTk ts pos (some .litIDENTIFIER)
    let (aliasN, pos) :=
      match curTok ts pos with
      | none => (none, pos)
      | some t =>
        if (strUpper t.value) = "AS" then
          match curTok ts (pos + 1) with
          | some t2 =>
            if t2.type = .litIDENTIFIER then (some t2.value, pos + 2)
            else (none, pos + 1)
          | none => (none, pos + 1)
        else if t.type = .litIDENTIFIER ∧
            (strUpper t.value) ∉ ["WHERE", "JOIN", "INNER", "LEFT", "RIGHT", "FULL",
                               "GROUP", "ORDER", "HAVING", "LIMIT"] then
          (some t.value, pos + 1)
        else (none, pos)
    let (joins, pos) ← parseJoinLoop ts fuel pos
    return ({ table := tblTok.value, aliasN := aliasN, joins := joins }, pos)

/-- The JOIN while-loop of parse_from_clause. -/
def parseJoinLoop (ts : List Token) : Nat → Nat → Except String ((List JoinA) × Nat)
  | 0, _ => .error "out of fuel"
  | fuel + 1, pos =>
    match curTok ts pos with
    | some t =>
      if isJoinStartTk t.type ∨
          (t.type = .litIDENTIFIER ∧
           (strUpper t.value) ∈ ["JOIN", "INNER", "LEFT", "RIGHT", "FULL"]) then do
        let (j, pos) ← parseJoinClause ts fuel pos
        let (rest, pos) ← parseJoinLoop ts fuel pos
        return (j :: rest, pos)
      else .ok ([], pos)
    | none => .ok ([], pos)

termination_by structural fuel _ => fuel
/-- SQLParser.parse_join_clause. -/
def parseJoinClause (ts : List Token) : Nat → Nat → Except String (JoinA × Nat)
  | 0, _ => .error "out of fuel"
  | fuel + 1, pos => do
    -- join type, defaulting to INNER
    let (joinType, pos) : String × Nat :=
      match curTok ts pos with
      | none => ("INNER", pos)
      | some t =>
        if isJoinKindTk t.type ∨
            (t.type = .litIDENTIFIER ∧
             (strUpper t.value) ∈ ["INNER", "LEFT", "RIGHT", "FULL", "CROSS"]) then
          ((strUpper t.value), pos + 1)
        else ("INNER", pos)
    -- optional OUTER (skipped for CROSS)
    let (joinType, pos) : String × Nat :=
      if joinType ≠ "CROSS" then
        match curTok ts pos with
        | some t =>
          if t.type = .kwOUTER ∨
              (t.type = .litIDENTIFIER ∧ (strUpper t.value) = "OUTER") then
            (joinType ++ " OUTER", pos + 1)
          else (joinType, pos)
        | none => (joinType, pos)
      else (joinType, pos)
    -- JOIN keyword
    let pos ←
      (match curTok ts pos with
       | some t =>
         if t.type = .kwJOIN then Except.ok (pos + 1)
         else if t.type = .litIDENTIFIER ∧ (strUpper t.value) = "JOIN" then Except.ok (pos + 1)
         else Except.error "ParseError: Expected JOIN keyword"
       | none => Except.error "ParseError: Expected JOIN keyword")
    let (tblTok, pos) ← consumeTk ts pos (some .litIDENTIFIER)
    -- optional aliasN
    let (aliasN, pos) : Option String × Nat :=
      match curTok ts pos with
      | none => (none, pos)
      | some t =>
        if (strUpper t.value) = "AS" then
          match curTok ts (pos + 1) with
          | some t2 =>
            if t2.type = .litIDENTIFIER then (some t2.value, pos + 2)
            else (none, pos + 1)
          | none => (none, pos + 1)
        else if t.type = .litIDENTIFIER ∧ (strUpper t.value) ≠ "ON" then
          (some t.value, pos + 1)
        else (none, pos)
    -- ON condition (absent for CROSS)
    if joinType = "CROSS" then
      return ({ joinType := joinType, table := tblTok.value,
                onCondition := none, aliasN := aliasN }, pos)
    else
      match curTok ts pos with
      | some t =>
        if (strUpper t.value) = "ON" then do
          let (c, pos) ← parseCondition ts fuel (pos + 1)
          return ({ joinType := joinType, table := tblTok.value,
                    onCondition := some c, aliasN := aliasN }, pos)
        else .error "ParseError: Expected ON keyword in JOIN clause"
      | none => .error "ParseError: Expected ON keyword in JOIN clause"

/-- SQLParser.parse_condition. -/
def parseCondition (ts : List Token) : Nat → Nat → Except String (Cond × Nat)
  | 0, _ => .error "out of fuel"
  | fuel + 1, pos => parseOrCondition ts fuel pos

termination_by structural fuel _ => fuel
/-- SQLParser.parse_or_condition. -/
def parseOrCondition (ts : List Token) : Nat → Nat → Except String (Cond × Nat)
  | 0, _ => .error "out of fuel"
  | fuel + 1, pos => do
    let (c, pos) ← parseAndCondition ts fuel pos
    parseOrLoop ts fuel c pos

termination_by structural fuel _ => fuel
/-- The OR while-loop of parse_or_condition (left-associative folding). -/
def parseOrLoop (ts : List Token) : Nat → Cond → Nat → Except String (Cond × Nat)
  | 0, _, _ => .error "out of fuel"
  | fuel + 1, acc, pos =>
    match curTok ts pos with
    | some t =>
      if t.type = .kwOR then do
        let (opTok, pos) ← consumeTk ts pos none
        let (nxt, pos) ← parseAndCondition ts fuel pos
        parseOrLoop ts fuel (.logical acc opTok.value nxt) pos
      else .ok (acc, pos)
    | none => .ok (acc, pos)

termination_by structural fuel _ _ => fuel
/-- SQLParser.parse_and_condition. -/
def parseAndCondition (ts : List Token) : Nat → Nat → Except String (Cond × Nat)
  | 0, _ => .error "out of fuel"
  | fuel + 1, pos => do
    let (c, pos) ← parseBasicCondition ts fuel pos
    parseAndLoop ts fuel c pos

termination_by structural fuel _ => fuel
/-- The AND while-loop of parse_and_condition (left-associative folding). -/
def parseAndLoop (ts : List Token) : Nat → Cond → Nat → Except String (Cond × Nat)
  | 0, _, _ => .error "out of fuel"
  | fuel + 1, acc, pos =>
    match curTok ts pos with
    | some t =>
      if t.type = .kwAND then do
        let (opTok, pos) ← consumeTk ts pos none
        let (nxt, pos) ← parseBasicCondition ts fuel pos
        parseAndLoop ts fuel (.logical acc opTok.value nxt) pos
      else .ok (acc, pos)
    | none => .ok (acc, pos)

termination_by structural fuel _ _ => fuel
/-- SQLParser.parse_basic_condition. -/
def parseBasicCondition (ts : List Token) : Nat → Nat → Except String (Cond × Nat)
  | 0, _ => .error "out of fuel"
  | fuel + 1, pos => do
    -- NOT flag
    let (isNot, pos) : Bool × Nat :=
      match curTok ts pos with
      | some t => if t.type = .kwNOT then (true, pos + 1) else (false, pos)
      | none => (false, pos)
    -- parenthesized subcondition: recurse to the top of the condition
    -- grammar and return it (the NOT flag is dropped, as in the source)
    match curTok ts pos with
    | some t =>
      if t.type = .pLPAREN then do
        let (_, pos) ← consumeTk ts pos (some .pLPAREN)
        let (c, pos) ← parseCondition ts fuel pos
        let (_, pos) ← consumeTk ts pos (some .pRPAREN)
        return (c, pos)
      else parseBasicCmp ts fuel isNot pos
    | none => parseBasicCmp ts fuel isNot pos

termination_by structural fuel _ => fuel
/-- The comparison part of parse_basic_condition (after NOT / parentheses
handling): left operand, optional qualifier, operator dispatch. -/
def parseBasicCmp (ts : List Token) : Nat → Bool → Nat → Except String (Cond × Nat)
  | 0, _, _ => .error "out of fuel"
  | fuel + 1, isNot, pos => do
    -- left operand: aggregate function or identifier
    let (left, pos) ← parseCmpLeft ts pos
    -- table.column (tested on the token value, as in the source)
    let (left, pos) ← parseCmpDotSuffix ts left pos
    -- operator dispatch
    match curTok ts pos with
    | none => .error "AttributeError: token is None"
    | some opTok =>
      if opTok.type = .kwIN then do
        let op := if isNot then "NOT IN" else "IN"
        let (_, pos) ← consumeTk ts pos (some .kwIN)
        let (_, pos) ← consumeTk ts pos (some .pLPAREN)
        let (v, pos) ← parseValue ts pos
        let (vs, pos) ← parseInValuesLoop ts fuel pos
        let (_, pos) ← consumeTk ts pos (some .pRPAREN)
        return (.cmp left op (.list (v :: vs)), pos)
      else if opTok.type = .kwLIKE then do
        let op := if isNot then "NOT LIKE" else "LIKE"
        let (_, pos) ← consumeTk ts pos (some .kwLIKE)
        let (v, pos) ← parseValue ts pos
        return (.cmp left op (.val v), pos)
      else if opTok.type = .kwBETWEEN then do
        let op := if isNot then "NOT BETWEEN" else "BETWEEN"
        let (_, pos) ← consumeTk ts pos (some .kwBETWEEN)
        let (v1, pos) ← parseValue ts pos
        let (_, pos) ← consumeTk ts pos (some .kwAND)
        let (v2, pos) ← parseValue ts pos
        return (.cmp left op (.list [v1, v2]), pos)
      else if opTok.type = .kwIS then do
        let (_, pos) ← consumeTk ts pos (some .kwIS)
        let (op, pos) :=
          match curTok ts pos with
          | some t =>
            if t.type = .kwNOT then ("IS NOT NULL", pos + 1) else ("IS NULL", pos)
          | none => ("IS NULL", pos)
        let (_, pos) ← consumeTk ts pos (some .kwNULL)
        return (.cmp left op .null, pos)
      else if isRelOpTk opTok.type then do
        let op := if isNot ∧ opTok.value = "=" then "!=" else opTok.value
        let (_, pos) ← consumeTk ts pos none
        let (v, pos) ← parseValue ts pos
        return (.cmp left op (.val v), pos)
      else .error "ParseError: Expected comparison operator"

/-- The comma while-loop of the IN value list. -/
def parseInValuesLoop (ts : List Token) : Nat → Nat → Except String ((List SqlVal) × Nat)
  | 0, _ => .error "out of fuel"
  | fuel + 1, pos =>
    match curTok ts pos with
    | some t =>
      if t.type = .pCOMMA then do
        let (_, pos) ← consumeTk ts pos (some .pCOMMA)
        let (v, pos) ← parseValue ts pos
        let (rest, pos) ← parseInValuesLoop ts fuel pos
        return (v :: rest, pos)
      else .ok ([], pos)
    | none => .ok ([], pos)

termination_by structural fuel _ => fuel
/-- SQLParser.parse_group_by_clause. -/
def parseGroupByClause (ts : List Token) : Nat → Nat → Except String ((List String) × Nat)
  | 0, _ => .error "out of fuel"
  | fuel + 1, pos => do
    let (_, pos) ← consumeTk ts pos (some .kwGROUP)
    let (_, pos) ← consumeTk ts pos (some .kwBY)
    let (c, pos) ← consumeTk ts pos (some .litIDENTIFIER)
    let (rest, pos) ← parseIdentCommaLoop ts fuel pos
    return (c.value :: rest, pos)

/-- A comma-separated identifier loop (GROUP BY columns). -/
def parseIdentCommaLoop (ts : List Token) : Nat → Nat → Except String ((List String) × Nat)
  | 0, _ => .error "out of fuel"
  | fuel + 1, pos =>
    match curTok ts pos with
    | some t =>
      if t.type = .pCOMMA then do
        let (_, pos) ← consumeTk ts pos (some .pCOMMA)
        let (c, pos) ← consumeTk ts pos (some .litIDENTIFIER)
        let (rest, pos) ← parseIdentCommaLoop ts fuel pos
        return (c.value :: rest, pos)
      else .ok ([], pos)
    | none => .ok ([], pos)

termination_by structural fuel _ => fuel
/-- SQLParser.parse_limit_clause. -/
def parseLimitClause (ts : List Token) : Nat → Nat → Except String (LimitA × Nat)
  | 0, _ => .error "out of fuel"
  | _ + 1, pos => do
    let (_, pos) ← consumeTk ts pos (some .kwLIMIT)
    let (cntTok, pos) ← consumeTk ts pos (some .litNUMBER)
    let cnt ← pyInt cntTok.value
    match curTok ts pos with
    | some t =>
      if t.type = .kwOFFSET then do
        let (_, pos) ← consumeTk ts pos (some .kwOFFSET)
        let (offTok, pos) ← consumeTk ts pos (some .litNUMBER)
        let off ← pyInt offTok.value
        return ({ count := cnt, offset := some off }, pos)
      else return ({ count := cnt, offset := none }, pos)
    | none => return ({ count := cnt, offset := none }, pos)

/-- SQLParser.parse_order_clause. -/
def parseOrderClause (ts : List Token) : Nat → Nat → Except String ((List OrderColA) × Nat)
  | 0, _ => .error "out of fuel"
  | fuel + 1, pos => do
    let (_, pos) ← consumeTk ts pos (some .kwORDER)
    let (_, pos) ← consumeTk ts pos (some .kwBY)
    let (c, pos) ← consumeTk ts pos (some .litIDENTIFIER)
    let (dir, pos) :=
      match curTok ts pos with
      | some t =>
        if t.type = .kwASC ∨ t.type = .kwDESC then (t.value, pos + 1)
        else ("ASC", pos)
      | none => ("ASC", pos)
    let (rest, pos) ← parseOrderColLoop ts fuel pos
    return ({ column := c.value, direction := dir } :: rest, pos)

/-- The comma while-loop of parse_order_clause. -/
def parseOrderColLoop (ts : List Token) : Nat → Nat → Except String ((List OrderColA) × Nat)
  | 0, _ => .error "out of fuel"
  | fuel + 1, pos =>
    match curTok ts pos with
    | some t =>
      if t.type = .pCOMMA then do
        let (_, pos) ← consumeTk ts pos (some .pCOMMA)
        let (c, pos) ← consumeTk ts pos (some .litIDENTIFIER)
        let (dir, pos) :=
          match curTok ts pos with
          | some t2 =>
            if t2.type = .kwASC ∨ t2.type = .kwDESC then (t2.value, pos + 1)
            else ("ASC", pos)
          | none => ("ASC", pos)
        let (rest, pos) ← parseOrderColLoop ts fuel pos
        return ({ column := c.value, direction := dir } :: rest, pos)
      else .ok ([], pos)
    | none => .ok ([], pos)
termination_by structural fuel _ => fuel

end

/-- SQLParser.parse: reject the empty token list, then parse a query with
set operations (leftover tokens are ignored, as in the source). -/
def parseSQL (ts : List Token) (fuel : Nat) : Except String SelectA :=
  if ts.isEmpty then .error "ParseError: Empty query"
  else (parseQuerySetOps ts fuel 0).map (fun r => r.1)

/-! ## IR (ir_generator.py, IRGenerator)

The IR produced by IRGenerator.generate is a dict with keys operation,
distinct, columns, from, filters, group_by, having, ordering, limit.
Notably it carries **no** "set_operations" key (set operations parsed into
the AST are dropped) and its column dicts carry **no** "expression" key
(_process_columns copies only name/alias/function/table_alias), so the
corresponding branches of the code generator see None there.  The IR type
below still has a `setOps` field because AdvancedCodeGenerator.generate
reads `ir.get("set_operations")` and recurses through it; IRGenerator
always leaves it empty. -/

/-- One column dict of _process_columns. -/
structure IRColumn where
  name : String
  aliasN : Option String
  function : Option String
  tableAlias : Option String
  deriving DecidableEq, Repr

/-- IR conditions (_process_condition_recursive output). The WHERE/HAVING
condition_group wrapper dicts are modelled transparently: the generator
stores the condition they wrap, and _generate_filter_code reads it back. -/
inductive CondIR
  | logical (op : String) (left right : CondIR)
  | cmp (column : String) (op : String) (value : CondRhs) (valueType : String)
  deriving DecidableEq, Repr

/-- One join dict of _process_from_clause. On a hand-built IR the condition
may be absent (the generator itself crashes on a None condition, see
irGenerate). -/
structure IRJoin where
  jtype : String
  table : String
  aliasN : Option String
  onCondition : Option CondIR
  deriving DecidableEq, Repr

structure FromIR where
  table : String
  aliasN : Option String
  joins : List IRJoin
  deriving DecidableEq, Repr

structure IROrderCol where
  column : String
  direction : String
  ascending : Bool
  deriving DecidableEq, Repr

structure IRLimit where
  count : Int
  offset : Option Int
  deriving DecidableEq, Repr

mutual
/-- The IR dict consumed by AdvancedCodeGenerator.generate. -/
inductive IR
  | mk (distinct : Bool) (columns : List IRColumn) (fromC : FromIR)
       (filters : Option CondIR) (groupByC : Option (List String))
       (havingC : Option CondIR) (ordering : Option (List IROrderCol))
       (limitC : Option IRLimit) (setOps : List SetOpIR)

/-- A set-operation dict (type / all / right_query). -/
inductive SetOpIR
  | mk (opType : String) (allFlag : Bool) (rightQuery : Option IR)
end

def IR.distinct : IR → Bool | ⟨d, _, _, _, _, _, _, _, _⟩ => d
def IR.columns : IR → List IRColumn | ⟨_, c, _, _, _, _, _, _, _⟩ => c
def IR.fromC : IR → FromIR | ⟨_, _, f, _, _, _, _, _, _⟩ => f
def IR.filters : IR → Option CondIR | ⟨_, _, _, w, _, _, _, _, _⟩ => w
def IR.groupByC : IR → Option (List String) | ⟨_, _, _, _, g, _, _, _, _⟩ => g
def IR.havingC : IR → Option CondIR | ⟨_, _, _, _, _, h, _, _, _⟩ => h
def IR.ordering : IR → Option (List IROrderCol) | ⟨_, _, _, _, _, _, o, _, _⟩ => o
def IR.limitC : IR → Option IRLimit | ⟨_, _, _, _, _, _, _, l, _⟩ => l
def IR.setOps : IR → List SetOpIR | ⟨_, _, _, _, _, _, _, _, s⟩ => s

/-- IRGenerator._normalize_operator: dict lookup on the upper-cased
spelling, falling back to the lower-cased spelling on a miss. -/
def normalizeOperator (op : String) : String :=
  let u := (strUpper op)
  if u = "=" then "eq"
  else if u = "!=" then "ne"
  else if u = "<>" then "ne"
  else if u = "<" then "lt"
  else if u = ">" then "gt"
  else if u = "<=" then "le"
  else if u = ">=" then "ge"
  else if u = "IN" then "in"
  else if u = "NOT IN" then "not_in"
  else if u = "LIKE" then "like"
  else if u = "NOT LIKE" then "not_like"
  else if u = "BETWEEN" then "between"
  else if u = "NOT BETWEEN" then "not_between"
  else if u = "IS NULL" then "is_null"
  else if u = "IS NOT NULL" then "is_not_null"
  else (strLower op)

/-- IRGenerator._get_value_type (floats are the Rat-modelled values). -/
def getValueType : CondRhs → String
  | .val (.i _) => "integer"
  | .val (.f _) => "float"
  | .val (.s _) => "string"
  | .list _ => "list"
  | .null => "null"

/-- IRGenerator._process_condition_recursive: logical nodes keep the raw
AND/OR lexeme; comparison leaves get a normalized operator and a value
type. -/
def processCondRec : Cond → CondIR
  | .logical l op r => .logical op (processCondRec l) (processCondRec r)
  | .cmp col op rhs => .cmp col (normalizeOperator op) rhs (getValueType rhs)

/-- The join loop of IRGenerator._process_from_clause.  A join without an
ON condition (CROSS JOIN) crashes the generator: _process_condition_recursive
dereferences condition.left on None (AttributeError). -/
def processJoins : List JoinA → Except String (List IRJoin)
  | [] => .ok []
  | j :: js =>
    match j.onCondition with
    | none => .error "AttributeError: NoneType object has no attribute left"
    | some c => do
      let rest ← processJoins js
      return ({ jtype := j.joinType, table := j.table, aliasN := j.aliasN,
                onCondition := some (processCondRec c) } : IRJoin) :: rest

/-- IRGenerator.generate. -/
def irGenerate (ast : SelectA) : Except String IR := do
  let joins ← processJoins ast.fromClause.joins
  return IR.mk
    ast.distinct
    (ast.columns.map fun c =>
      { name := c.name, aliasN := c.aliasN, function := c.function,
        tableAlias := c.tableAlias })
    { table := ast.fromClause.table, aliasN := ast.fromClause.aliasN,
      joins := joins }
    (ast.whereC.map processCondRec)
    ast.groupByC
    (ast.havingC.map processCondRec)
    (ast.orderC.map fun l => l.map fun oc =>
      { column := oc.column, direction := (strUpper oc.direction),
        ascending := (strUpper oc.direction) = "ASC" })
    (ast.limitC.map fun lc => { count := lc.count, offset := lc.offset })
    []

/-! ## Tables (the pandas DataFrames the executor works on)

A DataFrame is modelled as a list of column names plus a list of rows,
each row a list of cells (floats as rationals). Index labels are not
modelled: boolean masks apply positionally and must have the same length
as the frame (the generated code only ever filters a frame with a mask
built from a frame of the same length), and merges on left_index /
right_index pair rows positionally. -/

inductive Cell
  | null
  | i (n : Int)
  | f (q : Rat)
  | s (v : String)
  deriving DecidableEq, Repr

structure Table where
  cols : List String
  rows : List (List Cell)
  deriving DecidableEq, Repr

/-- pandas DataFrame.empty: any axis of length 0. -/
def Table.isEmptyT (t : Table) : Bool := t.rows.isEmpty || t.cols.isEmpty

/-- Index of a column name. -/
def colIdx (cols : List String) (c : String) : Option Nat := cols.indexOf? c

/-- Cell of row at the named column (given the table columns). -/
def rowCell (cols : List String) (row : List Cell) (c : String) : Option Cell :=
  (colIdx cols c).bind fun i => row.get? i

/-- The named column of a table, as a list of cells. -/
def Table.column (t : Table) (c : String) : Option (List Cell) :=
  (colIdx t.cols c).map fun i => t.rows.map fun row => row.getD i .null

/-- Numeric view of a cell. -/
def Cell.toRat? : Cell → Option Rat
  | .i n => some (n : Rat)
  | .f q => some q
  | _ => none

/-- pandas == on cells: NaN equals nothing (including itself), numbers
compare across int/float, strings compare to strings, and a type mismatch
is simply unequal. -/
def cellEqB : Cell → Cell → Bool
  | .null, _ => false
  | _, .null => false
  | .s a, .s b => a = b
  | .s _, _ => false
  | _, .s _ => false
  | a, b =>
    match a.toRat?, b.toRat? with
    | some x, some y => x = y
    | _, _ => false

/-- pandas ordering comparisons on cells: NaN compares False, numbers
compare numerically, strings compare lexicographically, and comparing a
string with a number raises TypeError. `op` is one of lt/le/gt/ge. -/
def cellRel (op : String) : Cell → Cell → Except String Bool
  | .null, _ => .ok false
  | _, .null => .ok false
  | .s a, .s b =>
    .ok (if op = "lt" then a < b else if op = "le" then a ≤ b
         else if op = "gt" then b < a else if op = "ge" then b ≤ a else false)
  | a, b =>
    match a.toRat?, b.toRat? with
    | some x, some y =>
      .ok (if op = "lt" then x < y else if op = "le" then x ≤ y
           else if op = "gt" then y < x else if op = "ge" then y ≤ x else false)
    | _, _ => .error "TypeError: unorderable types"

/-- A total comparison on cells, used to model the sorted group keys of
pandas groupby(sort=True) and multi-key sort_values (numbers before
strings; group keys never contain nulls because pandas drops them). -/
def cellRank : Cell → Nat
  | .null => 2
  | .i _ => 0
  | .f _ => 0
  | .s _ => 1

def cellCmp (a b : Cell) : Ordering :=
  match a, b with
  | .s x, .s y => compare x y
  | .null, .null => .eq
  | _, _ =>
    match a.toRat?, b.toRat? with
    | some x, some y => compare x y
    | _, _ => compare (cellRank a) (cellRank b)

def listCellCmp : List Cell → List Cell → Ordering
  | [], [] => .eq
  | [], _ :: _ => .lt
  | _ :: _, [] => .gt
  | a :: as', b :: bs =>
    match cellCmp a b with
    | .eq => listCellCmp as' bs
    | o => o

/-! ### LIKE (`str.contains` with the %-to-.* and _-to-. rewrite)

The generated filter rewrites the SQL pattern with
`value.replace('%', '.*').replace('_', '.')` and runs `str.contains`
(regex search, unanchored). In the rewritten pattern `.*` matches any run,
`.` (from `_`, or a literal dot in the original pattern) matches one
character, and every other character matches itself (other regex
metacharacters are not modelled; the grammar's patterns are plain). -/

inductive LikeTok
  | anyRun
  | anyChar
  | lit (c : Char)
  deriving DecidableEq, Repr

def likeTokens (p : String) : List LikeTok :=
  p.toList.map fun c =>
    if c = '%' then .anyRun else if c = '_' ∨ c = '.' then .anyChar else .lit c

def likeMatchHere : List LikeTok → List Char → Bool
  | [], _ => true
  | .anyRun :: ts, cs =>
    likeMatchHere ts cs ||
      (match cs with
       | _ :: cs' => likeMatchHere (.anyRun :: ts) cs'
       | [] => false)
  | .anyChar :: ts, _ :: cs => likeMatchHere ts cs
  | .anyChar :: _, [] => false
  | .lit c :: ts, d :: cs => c = d && likeMatchHere ts cs
  | .lit _ :: _, [] => false
termination_by ts cs => (cs.length, ts.length)

def likeSearch (ts : List LikeTok) : List Char → Bool
  | [] => likeMatchHere ts []
  | c :: cs => likeMatchHere ts (c :: cs) || likeSearch ts cs

/-! ### sort_values

_generate_order_code emits sort_values(by='col', ascending=flag) for a
single order key and sort_values(by=[...], ascending=[...]) for several.
The multi-column path is a stable lexicographic sort (pandas
lexsort_indexer); NaN is placed last under both directions
(na_position='last'); stability is modelled by breaking full ties on the
original row index. The single-column path is pandas nargsort with the
default kind='quicksort', which does not guarantee the order of tied
keys: a descending sort reverses the ascending argsort, so tied keys come
out in reversed original order. -/

/-- Per-key cell comparison: nulls last regardless of direction, otherwise
cellCmp, reversed when descending. -/
def keyCmp (asc : Bool) (a b : Cell) : Ordering :=
  match a, b with
  | .null, .null => .eq
  | .null, _ => .gt
  | _, .null => .lt
  | _, _ => if asc then cellCmp a b else (cellCmp a b).swap

/-- Lexicographic comparison of two rows over the given sort keys. -/
def rowKeyCmp (cols : List String) (keys : List (String × Bool)) :
    List Cell → List Cell → Ordering :=
  fun ra rb =>
    match keys with
    | [] => .eq
    | (k, asc) :: ks =>
      match keyCmp asc ((rowCell cols ra k).getD .null)
          ((rowCell cols rb k).getD .null) with
      | .eq => rowKeyCmp cols ks ra rb
      | o => o

/-- Key comparison on index-tagged rows, ties broken by original index. -/
def taggedCmp (cols : List String) (keys : List (String × Bool))
    (a b : Nat × List Cell) : Ordering :=
  match rowKeyCmp cols keys a.2 b.2 with
  | .eq => compare a.1 b.1
  | o => o

/-- The sorted index-tagged row list of sort_values. -/
def sortedTagged (cols : List String) (keys : List (String × Bool))
    (rows : List (List Cell)) : List (Nat × List Cell) :=
  List.insertionSort (fun a b => taggedCmp cols keys a b ≠ .gt) rows.enum

/-- Cell comparison on index-tagged cells, ties broken by index. -/
def cellArgCmp (a b : Nat × Cell) : Ordering :=
  match cellCmp a.2 b.2 with
  | .eq => compare a.1 b.1
  | o => o

/-- pandas nargsort (kind='quicksort', na_position='last'), used by the
single-column sort_values path: null keys are masked out and appended
last; the non-null block is argsorted ascending by the key; a descending
sort reverses that argsort, so keys tied under a descending sort come out
in reversed original order. numpy's default introsort leaves the tie
order of the ascending argsort implementation-defined (it is insertion
sort, hence stable, only on its small-array regime, which covers the
concrete instances below); the ascending argsort is modelled as a stable
argsort, and no theorem relies on the ascending single-key tie order. -/
def nargsortModel (asc : Bool) (vals : List Cell) : List Nat :=
  let tagged := vals.enum
  let nanIdx := (tagged.filter (fun p => p.2 = Cell.null)).map Prod.fst
  let nonNan := tagged.filter (fun p => ¬ p.2 = Cell.null)
  let idxs :=
    (List.insertionSort (fun a b => cellArgCmp a b ≠ .gt) nonNan).map Prod.fst
  (if asc then idxs else idxs.reverse) ++ nanIdx

/-- DataFrame.sort_values (KeyError when a sort column is missing): the
single-key scalar form goes through nargsort with the default quicksort,
the multi-key list form through the stable lexicographic sort. -/
def sortTable (keys : List (String × Bool)) (t : Table) : Except String Table :=
  if keys.all (fun k => t.cols.contains k.1) then
    match keys with
    | [(k, asc)] =>
      let vals := t.rows.map (fun r => (rowCell t.cols r k).getD .null)
      .ok ⟨t.cols, (nargsortModel asc vals).map (fun i => t.rows.getD i [])⟩
    | _ =>
      .ok ⟨t.cols, (sortedTagged t.cols keys t.rows).map (fun p => p.2)⟩
  else .error "KeyError: sort column not found"

/-! ### merge / concat / drop_duplicates -/

/-- Right-hand column names kept by a merge: when a key pair has the same
name on both sides the right copy is dropped; other collisions with the
left frame get the `_y` suffix (suffixes=('', '_y')). -/
def mergeRightCols (leftCols rightCols : List String)
    (pairs : List (String × String)) : List (String × String) :=
  (rightCols.filter
      (fun c => ¬ pairs.any (fun p => p.1 = p.2 ∧ p.2 = c))).map
    (fun c => (c, if leftCols.contains c then c ++ "_y" else c))

/-- All key pairs equal on the two rows (NaN matches nothing). -/
def rowsMatch (lcols rcols : List String) (pairs : List (String × String))
    (lr rr : List Cell) : Bool :=
  pairs.all fun p =>
    cellEqB ((rowCell lcols lr p.1).getD .null) ((rowCell rcols rr p.2).getD .null)

/-- pd.merge on explicit key column pairs. `how` is one of
inner/left/right/outer. The optional indicator appends the `_merge`
column (both / left_only / right_only). KeyError when a key is missing. -/
def pdMerge (how : String) (pairs : List (String × String))
    (tl tr : Table) (indicator : Bool) : Except String Table :=
  if ¬ pairs.all (fun p => tl.cols.contains p.1) then
    .error "KeyError: merge key not found in left frame"
  else if ¬ pairs.all (fun p => tr.cols.contains p.2) then
    .error "KeyError: merge key not found in right frame"
  else
    let rkept := mergeRightCols tl.cols tr.cols pairs
    let outCols := tl.cols ++ rkept.map (fun p => p.2) ++
      (if indicator then ["_merge"] else [])
    let combine := fun (lr rr : List Cell) (tag : String) =>
      lr ++ rkept.map (fun p => (rowCell tr.cols rr p.1).getD .null) ++
        (if indicator then [Cell.s tag] else [])
    let lnull := tl.cols.map (fun _ => Cell.null)
    let rnullKept := rkept.map (fun _ => Cell.null)
    let leftRows :=
      tl.rows.flatMap fun lr =>
        let ms := tr.rows.filter (rowsMatch tl.cols tr.cols pairs lr)
        if ms.isEmpty then
          if how = "inner" then []
          else [lr ++ rnullKept ++ (if indicator then [Cell.s "left_only"] else [])]
        else ms.map (fun rr => combine lr rr "both")
    let rightOnlyRows :=
      (tr.rows.filter fun rr =>
          ¬ tl.rows.any (fun lr => rowsMatch tl.cols tr.cols pairs lr rr)).map
        fun rr =>
          lnull ++ rkept.map (fun p => (rowCell tr.cols rr p.1).getD .null) ++
            (if indicator then [Cell.s "right_only"] else [])
    let rightRows :=
      tr.rows.flatMap fun rr =>
        let ms := tl.rows.filter (fun lr => rowsMatch tl.cols tr.cols pairs lr rr)
        if ms.isEmpty then
          [lnull ++ rkept.map (fun p => (rowCell tr.cols rr p.1).getD .null) ++
            (if indicator then [Cell.s "right_only"] else [])]
        else ms.map (fun lr => combine lr rr "both")
    if how = "right" then .ok ⟨outCols, rightRows⟩
    else if how = "outer" then .ok ⟨outCols, leftRows ++ rightOnlyRows⟩
    else .ok ⟨outCols, leftRows⟩

/-- pd.merge with left_index=True, right_index=True: rows pair up
positionally (default RangeIndex is assumed, see the Table model note). -/
def pdMergeIndex (how : String) (tl tr : Table) : Table :=
  let rkept := mergeRightCols tl.cols tr.cols []
  let outCols := tl.cols ++ rkept.map (fun p => p.2)
  let lnull := tl.cols.map (fun _ => Cell.null)
  let rnull := rkept.map (fun _ => Cell.null)
  let n :=
    if how = "inner" then min tl.rows.length tr.rows.length
    else if how = "left" then tl.rows.length
    else if how = "right" then tr.rows.length
    else max tl.rows.length tr.rows.length
  let row := fun (k : Nat) =>
    (match tl.rows.get? k with
     | some lr => lr
     | none => lnull) ++
    (match tr.rows.get? k with
     | some rr => rkept.map (fun p => (rowCell tr.cols rr p.1).getD .null)
     | none => rnull)
  ⟨outCols, (List.range n).map row⟩

/-- pd.concat([l, r], ignore_index=True): columns align by name, the
right-only columns are appended, missing cells become NaN. -/
def pdConcat (tl tr : Table) : Table :=
  let cols := tl.cols ++ tr.cols.filter (fun c => ¬ tl.cols.contains c)
  let align := fun (orig : List String) (row : List Cell) =>
    cols.map fun c => (rowCell orig row c).getD .null
  ⟨cols, tl.rows.map (align tl.cols) ++ tr.rows.map (align tr.cols)⟩

/-- drop_duplicates(): full-row deduplication keeping first occurrences. -/
def dedupRows : List (List Cell) → List (List Cell)
  | [] => []
  | r :: rs => r :: dedupRows (rs.filter (fun r' => r' ≠ r))
termination_by l => l.length
decreasing_by exact Nat.lt_succ_of_le (List.length_filter_le _ rs)

/-! ### groupby and aggregates -/

/-- The key tuple of a row. -/
def keyTuple (cols : List String) (keys : List String) (row : List Cell) :
    List Cell :=
  keys.map fun k => (rowCell cols row k).getD .null

/-- Rows kept by groupby: pandas drops rows with a NaN group key. -/
def groupRows (cols : List String) (keys : List String)
    (rows : List (List Cell)) : List (List Cell) :=
  rows.filter fun r => ¬ (keyTuple cols keys r).contains Cell.null

/-- First-seen-order deduplication of key tuples. -/
def seenKeys (cols : List String) (keys : List String)
    (rows : List (List Cell)) : List (List Cell) :=
  dedupRows (rows.map (keyTuple cols keys))

/-- The group keys in pandas groupby(sort=True) order. -/
def sortedGroupKeys (cols : List String) (keys : List String)
    (rows : List (List Cell)) : List (List Cell) :=
  List.insertionSort (fun a b => listCellCmp a b ≠ .gt)
    (seenKeys cols keys (groupRows cols keys rows))

/-- The rows of one group, in original order. -/
def groupMembers (cols : List String) (keys : List String)
    (rows : List (List Cell)) (key : List Cell) : List (List Cell) :=
  (groupRows cols keys rows).filter fun r => keyTuple cols keys r = key

/-- groupby(keys).size().reset_index(name=alias). -/
def pdGroupSize (keys : List String) (aliasName : String) (t : Table) :
    Except String Table :=
  if ¬ keys.all (fun k => t.cols.contains k) then
    .error "KeyError: group column not found"
  else
    .ok ⟨keys ++ [aliasName],
      (sortedGroupKeys t.cols keys t.rows).map fun key =>
        key ++ [Cell.i (groupMembers t.cols keys t.rows key).length]⟩

/-- groupby(keys).first().reset_index(): per group and non-key column, the
first non-null value (groupby.first skips NaN), columns reordered with the
keys first. -/
def pdGroupFirst (keys : List String) (t : Table) : Except String Table :=
  if ¬ keys.all (fun k => t.cols.contains k) then
    .error "KeyError: group column not found"
  else
    let others := t.cols.filter (fun c => ¬ keys.contains c)
    .ok ⟨keys ++ others,
      (sortedGroupKeys t.cols keys t.rows).map fun key =>
        key ++ others.map fun c =>
          match (groupMembers t.cols keys t.rows key).filterMap
              (fun r => match (rowCell t.cols r c).getD .null with
                        | .null => none
                        | cell => some cell) with
          | v :: _ => v
          | [] => .null⟩

/-- One pandas aggregate over a list of cells (nulls skipped): count, sum
(numeric sum, or concatenation on all-string data), mean, max, min; a
numeric aggregate over mixed or string data raises TypeError. -/
def aggColumn (f : String) (cells : List Cell) : Except String Cell :=
  let nn := cells.filter (fun c => c ≠ .null)
  let rats := nn.filterMap Cell.toRat?
  let allNum := nn.all (fun c => c.toRat?.isSome)
  let strs := nn.filterMap (fun c => match c with | .s v => some v | _ => none)
  let allStr := nn.all (fun c => match c with | .s _ => true | _ => false)
  if f = "count" then .ok (.i nn.length)
  else if f = "sum" then
    if allNum then
      if nn.all (fun c => match c with | .i _ => true | _ => false)
      then .ok (.i (nn.filterMap (fun c => match c with | .i n => some n | _ => none)).sum)
      else .ok (.f rats.sum)
    else if allStr then .ok (.s (String.join strs))
    else .error "TypeError: cannot add mixed types"
  else if f = "mean" then
    if allNum then
      match nn with
      | [] => .ok .null
      | _ => .ok (.f (rats.sum / (rats.length : Rat)))
    else .error "TypeError: cannot compute mean of non-numeric data"
  else if f = "max" ∨ f = "min" then
    match nn with
    | [] => .ok .null
    | c0 :: rest =>
      if allNum ∨ allStr then
        .ok (rest.foldl
          (fun acc c =>
            match cellCmp c acc with
            | .gt => if f = "max" then c else acc
            | .lt => if f = "min" then c else acc
            | .eq => acc)
          c0)
      else .error "TypeError: unorderable types in aggregate"
  else .error "TypeError: unknown aggregate"

/-! ## Code generator (advanced_code_generator.py, AdvancedCodeGenerator)

Every emitted source line (or fixed block of lines, for the try/except
join and the groupby blocks) becomes one `Stmt`. Unreachable branches for
pipeline IRs — the complex-expression paths guarded by
`col.get("expression")`, which IRGenerator never sets — are not modelled;
`_has_expressions` is the constant false below.  The `self.table_aliases`
dict is not modelled: the generator only ever writes to it, its contents
never influence the emitted code. -/

/-- The structured form of a generated boolean filter string.
`trueLit` is the "(True)" fallback produced when building a comparison
raises. An atom renders as `tbl['col']...`; WHERE comparisons always bake
the name `result` in (the source hardcodes it), HAVING rewrites it to the
current frame. -/
inductive CmpAtom
  | cmpOp (col op : String) (v : CondRhs)
  | isinA (col : String) (v : CondRhs) (neg : Bool)
  | likeA (col : String) (pattern : String) (neg : Bool)
  | betweenA (col : String) (lo hi : SqlVal) (neg : Bool)
  | isnullA (col : String) (neg : Bool)
  deriving DecidableEq, Repr

inductive CondExpr
  | trueLit
  | andE (l r : CondExpr)
  | orE (l r : CondExpr)
  | atom (tbl : String) (a : CmpAtom)
  deriving DecidableEq, Repr

/-- Python `s.split(".", 1)[1]` when a dot is present, else `s`. -/
def stripQualString (s : String) : String :=
  if strContainsCh s '.' then String.intercalate "." (((splitCh '.' s.toList).map String.mk).drop 1) else s

/-- Python `s.split(".")[-1]`. -/
def lastDotComponent (s : String) : String :=
  ((((splitCh '.' s.toList).map String.mk).getLast?).getD s)

/-- AdvancedCodeGenerator._generate_comparison_code. Exceptions raised
while building the string (LIKE on a non-string value, BETWEEN unpacking)
are caught by its internal handler, yielding "(True)". A two-character
string BETWEEN value unpacks into its characters, as in Python. -/
def generateComparisonCode (column op : String) (value : CondRhs) : CondExpr :=
  let col := stripQualString column
  if op = "like" ∨ op = "not_like" then
    match value with
    | .val (.s p) => .atom "result" (.likeA col p (op = "not_like"))
    | _ => .trueLit
  else if op = "between" ∨ op = "not_between" then
    match value with
    | .list [a, b] => .atom "result" (.betweenA col a b (op = "not_between"))
    | .val (.s s) =>
      match s.toList with
      | [c1, c2] =>
        .atom "result" (.betweenA col (.s (String.mk [c1])) (.s (String.mk [c2]))
          (op = "not_between"))
      | _ => .trueLit
    | _ => .trueLit
  else if op = "in" then .atom "result" (.isinA col value false)
  else if op = "not_in" then .atom "result" (.isinA col value true)
  else if op = "is_null" then .atom "result" (.isnullA col false)
  else if op = "is_not_null" then .atom "result" (.isnullA col true)
  else if op = "eq" ∨ op = "ne" ∨ op = "lt" ∨ op = "gt" ∨ op = "le" ∨ op = "ge"
  then .atom "result" (.cmpOp col op value)
  else .atom "result" (.cmpOp col "eq" value)

/-- AdvancedCodeGenerator._generate_condition_code; `none` models the
empty string returned for condition shapes outside logical/comparison
(including a logical node whose operator is neither AND nor OR). -/
def generateConditionCode : CondIR → Option CondExpr
  | .logical op l r =>
    let lc := generateConditionCode l
    let rc := generateConditionCode r
    match lc, rc with
    | none, x => x
    | some a, none => some a
    | some a, some b =>
      if (strUpper op) = "AND" then some (.andE a b)
      else if (strUpper op) = "OR" then some (.orE a b)
      else none
  | .cmp col op value _vt => some (generateComparisonCode col op value)

/-- AdvancedCodeGenerator._generate_filter_code (the condition_group
wrapper is transparent in the IR model). -/
def generateFilterCode : Option CondIR → Option CondExpr
  | none => none
  | some f => generateConditionCode f

/-- The HAVING rewrites of generate: the textual
`replace("COUNT(*)", "count_*")` on column names, then
`replace("result[", resultDf + "[")` retargeting every atom. -/
def renameCountStarAtom : CmpAtom → CmpAtom
  | .cmpOp c op v => .cmpOp (c.replace "COUNT(*)" "count_*") op v
  | .isinA c v n => .isinA (c.replace "COUNT(*)" "count_*") v n
  | .likeA c p n => .likeA (c.replace "COUNT(*)" "count_*") p n
  | .betweenA c lo hi n => .betweenA (c.replace "COUNT(*)" "count_*") lo hi n
  | .isnullA c n => .isnullA (c.replace "COUNT(*)" "count_*") n

def havingTransform (resultDf : String) : CondExpr → CondExpr
  | .trueLit => .trueLit
  | .andE l r => .andE (havingTransform resultDf l) (havingTransform resultDf r)
  | .orE l r => .orE (havingTransform resultDf l) (havingTransform resultDf r)
  | .atom _ a => .atom resultDf (renameCountStarAtom a)

/-- The merge key layout of _generate_join_condition. -/
inductive JoinOn
  | byCols (lOn rOn : String)
  | byIndex
  deriving DecidableEq, Repr

/-- Python str() of a condition value (the join generator stringifies the
right-hand side; in the pipeline it is an identifier string). -/
def pyStr : CondRhs → String
  | .val (.s s) => s
  | .val (.i n) => toString n
  | .val (.f q) => toString q
  | .list _ => "[...]"
  | .null => "None"

/-- AdvancedCodeGenerator._generate_join_condition. -/
def genJoinCondition : Option CondIR → JoinOn
  | none => .byIndex
  | some (.cmp col op value _) =>
    if op = "eq" then .byCols (stripQualString col) (stripQualString (pyStr value))
    else .byIndex
  | some _ => .byIndex

/-- One entry of the aggregation dict built by _generate_group_by_code. -/
inductive AggItem
  | size (aliasName : String)
  | colFunc (aliasName col func : String)
  deriving DecidableEq, Repr

inductive Stmt
  | comment
  | importNumpy
  | copyAssign (dst src : String)
  | setColOne (x col : String)
  | mergeKey (dst l r key : String)
  | dropColAssign (dst src col : String)
  | tryMerge (dst dropSrc l r : String) (how : String) (onCond : JoinOn)
  | filterStmt (dst src : String) (cond : CondExpr)
  | assign (dst src : String)
  | selectColsStmt (dst src : String) (cols : List String)
      (renames : List (String × String))
  | dropDup (dst src : String)
  | sortVals (dst src : String) (keys : List (String × Bool))
  | limitHead (dst src : String) (n : Int)
  | limitSlice (dst src : String) (start stop : Int)
  | groupSize (dst src : String) (keys : List String) (aliasName : String)
  | groupAggMulti (dst src : String) (keys : List String) (items : List AggItem)
  | groupFirst (dst src : String) (keys : List String)
  | aggNoGroup (dst src : String) (items : List AggItem)
  | concatStmt (dst l r : String) (dedup : Bool)
  | mergeNoOn (dst l r : String) (how : String)
  | exceptMerge (dst l r : String)
  | exceptFilter (dst src : String)
  deriving DecidableEq, Repr

/-- The join_mapping dict of _generate_joins (misses default to inner). -/
def joinMapping (jt : String) : String :=
  if jt = "INNER" then "inner"
  else if jt = "LEFT" then "left"
  else if jt = "LEFT OUTER" then "left"
  else if jt = "RIGHT" then "right"
  else if jt = "RIGHT OUTER" then "right"
  else if jt = "FULL" then "outer"
  else if jt = "FULL OUTER" then "outer"
  else if jt = "CROSS" then "cross"
  else "inner"

/-- The join loop of AdvancedCodeGenerator._generate_joins; `i` is the
loop index, `total` the join count (the last join writes `result`). -/
def genJoinsGo (total : Nat) : Nat → List IRJoin → String → List Stmt × String
  | _, [], cur => ([], cur)
  | i, j :: rest, cur =>
    let pr :=
      match j.aliasN with
      | some a => ([Stmt.copyAssign a j.table], a)
      | none => (([] : List Stmt), j.table)
    let prep := pr.1
    let rightDf := pr.2
    let resultVar := if i < total - 1 then "joined_" ++ toString i else "result"
    let stmts :=
      if (strUpper j.jtype) = "CROSS" then
        prep ++ [Stmt.setColOne cur "_cross_key",
                 Stmt.setColOne rightDf "_cross_key",
                 Stmt.mergeKey resultVar cur rightDf "_cross_key",
                 Stmt.dropColAssign resultVar resultVar "_cross_key"]
      else
        prep ++ [Stmt.tryMerge resultVar resultVar cur rightDf
                   (joinMapping (strUpper j.jtype)) (genJoinCondition j.onCondition)]
    let rec1 := genJoinsGo total (i + 1) rest resultVar
    (stmts ++ rec1.1, rec1.2)

/-- AdvancedCodeGenerator._has_aggregate_functions. -/
def hasAggregateFunctions (cols : List IRColumn) : Bool :=
  cols.any fun c => c.function.isSome

/-- AdvancedCodeGenerator._has_expressions: constant false for pipeline
IRs, whose column dicts carry no "expression" key. -/
def hasExpressions (_cols : List IRColumn) : Bool := false

/-- Python dict insertion (update in place, preserving first position). -/
def dictInsert (k : String) (v : α) : List (String × α) → List (String × α)
  | [] => [(k, v)]
  | (k', v') :: rest =>
    if k' = k then (k, v) :: rest else (k', v') :: dictInsert k v rest

/-- AdvancedCodeGenerator._generate_column_selection result: the whole
frame ("{df}") or a column selection with renames. -/
inductive SelTempl
  | passthrough
  | selectT (cols : List String) (renames : List (String × String))
  deriving DecidableEq, Repr

def generateColumnSelection (columns : List IRColumn) : SelTempl :=
  if columns.isEmpty then .passthrough
  else if columns.length = 1 ∧
      (columns.headD ⟨"", none, none, none⟩).name = "*" then .passthrough
  else
    let step := fun (acc : List String × List (String × String)) (col : IRColumn) =>
      let name :=
        if col.tableAlias.isSome ∧ ¬ strContainsCh col.name '.' then col.name
        else if strContainsCh col.name '.' then lastDotComponent col.name
        else col.name
      let sel := acc.1 ++ [name]
      let ren :=
        match col.aliasN with
        | some a => dictInsert name a acc.2
        | none => acc.2
      (sel, ren)
    let (sel, ren) := columns.foldl step ([], [])
    if ¬ sel.isEmpty then .selectT sel ren else .passthrough

/-- The value stored in the agg_funcs dict of _generate_group_by_code. -/
inductive AggFuncV
  | sizeV
  | colFuncV (col func : String)
  deriving DecidableEq, Repr

/-- The pandas function table of _generate_group_by_code (avg becomes
mean; a miss keeps the function name, since the later string split strips
the parentheses the default adds). -/
def pandasAggName (f : String) : String :=
  if f = "count" then "count"
  else if f = "sum" then "sum"
  else if f = "avg" then "mean"
  else if f = "max" then "max"
  else if f = "min" then "min"
  else f

/-- The agg_funcs dict and regular_cols list of _generate_group_by_code. -/
def buildAggState (columns : List IRColumn) :
    List (String × AggFuncV) × List String :=
  columns.foldl
    (fun acc col =>
      match col.function with
      | some fn =>
        let fname := (strLower fn)
        let aliasName := col.aliasN.getD (fname ++ "_" ++ col.name)
        if col.name = "*" ∧ fname = "count" then
          (dictInsert aliasName .sizeV acc.1, acc.2)
        else
          (dictInsert aliasName (.colFuncV col.name (pandasAggName fname)) acc.1,
           acc.2)
      | none => (acc.1, acc.2 ++ [col.name]))
    ([], [])

/-- The agg_dict_items list: size entries pass through, column entries are
kept only when the column name has more than one character. -/
def aggItems (aggf : List (String × AggFuncV)) : List AggItem :=
  aggf.filterMap fun p =>
    match p.2 with
    | .sizeV => some (.size p.1)
    | .colFuncV c f => if c.length > 1 then some (.colFunc p.1 c f) else none

/-- The `"'size'" in agg_dict_items[0]` test: true for a size entry, or
when one of the quoted components is the string size. -/
def itemMentionsSize : AggItem → Bool
  | .size _ => true
  | .colFunc a c f => a = "size" ∨ c = "size" ∨ f = "size"

/-- AdvancedCodeGenerator._generate_group_by_code (the complex-expression
branch is unreachable for pipeline IRs). Returns the emitted statements
and the new result frame name. -/
def genGroupBy (groupByC : Option (List String)) (columns : List IRColumn)
    (resultDf : String) : List Stmt × String :=
  let gcols := groupByC.getD []
  let aggf := (buildAggState columns).1
  if ¬ gcols.isEmpty then
    let valid := gcols.filter (fun c => c.length > 1)
    if valid.isEmpty then ([], resultDf)
    else if ¬ aggf.isEmpty then
      let items := aggItems aggf
      match items with
      | [] => ([Stmt.groupFirst "result_grouped" resultDf valid], "result_grouped")
      | [it] =>
        if itemMentionsSize it then
          ([Stmt.groupSize "result_agg" resultDf valid
              ((aggf.headD ("", .sizeV)).1)], "result_agg")
        else ([Stmt.groupAggMulti "result_agg" resultDf valid [it]], "result_agg")
      | items => ([Stmt.groupAggMulti "result_agg" resultDf valid items], "result_agg")
    else ([Stmt.groupFirst "result_grouped" resultDf valid], "result_grouped")
  else if ¬ aggf.isEmpty then
    ([Stmt.aggNoGroup "result_agg" resultDf
        (aggf.map fun p =>
          match p.2 with
          | .sizeV => AggItem.size p.1
          | .colFuncV c f => AggItem.colFunc p.1 c f)], "result_agg")
  else ([], resultDf)

/-- AdvancedCodeGenerator._generate_order_code keys. -/
def genOrderKeys (ocs : List IROrderCol) : List (String × Bool) :=
  ocs.map fun oc => (oc.column, oc.ascending)

/-- AdvancedCodeGenerator._generate_limit_code: `iloc[offset:offset+count]`
when the offset is truthy, else `head(count)`. -/
def genLimitStmt (df : String) (lc : IRLimit) : Stmt :=
  let off := lc.offset.getD 0
  if off ≠ 0 then .limitSlice df df off (off + lc.count)
  else .limitHead df df lc.count

/-- Lines skipped when inlining a right query's code into a set operation
(`line.strip() and not line.startswith('#')`): exactly the comments; the
numpy import line is kept. -/
def isCommentStmt : Stmt → Bool
  | .comment => true
  | _ => false

/-- The per-line `replace('result =', right_df_name + ' =')` of
_generate_set_operations: in every emitted line the substring `result =`
occurs exactly when the assignment target is the name result, so the
rewrite renames that target and nothing else. -/
def renameResult (new : String) : Stmt → Stmt
  | .comment => .comment
  | .importNumpy => .importNumpy
  | .copyAssign dst src => .copyAssign (if dst = "result" then new else dst) src
  | .setColOne x c => .setColOne x c
  | .mergeKey dst l r k => .mergeKey (if dst = "result" then new else dst) l r k
  | .dropColAssign dst src c =>
    .dropColAssign (if dst = "result" then new else dst) src c
  | .tryMerge dst dropSrc l r how onc =>
    .tryMerge (if dst = "result" then new else dst) dropSrc l r how onc
  | .filterStmt dst src c => .filterStmt (if dst = "result" then new else dst) src c
  | .assign dst src => .assign (if dst = "result" then new else dst) src
  | .selectColsStmt dst src cs rs =>
    .selectColsStmt (if dst = "result" then new else dst) src cs rs
  | .dropDup dst src => .dropDup (if dst = "result" then new else dst) src
  | .sortVals dst src ks => .sortVals (if dst = "result" then new else dst) src ks
  | .limitHead dst src n => .limitHead (if dst = "result" then new else dst) src n
  | .limitSlice dst src a b =>
    .limitSlice (if dst = "result" then new else dst) src a b
  | .groupSize dst src ks a => .groupSize (if dst = "result" then new else dst) src ks a
  | .groupAggMulti dst src ks its =>
    .groupAggMulti (if dst = "result" then new else dst) src ks its
  | .groupFirst dst src ks => .groupFirst (if dst = "result" then new else dst) src ks
  | .aggNoGroup dst src its => .aggNoGroup (if dst = "result" then new else dst) src its
  | .concatStmt dst l r d => .concatStmt (if dst = "result" then new else dst) l r d
  | .mergeNoOn dst l r how => .mergeNoOn (if dst = "result" then new else dst) l r how
  | .exceptMerge dst l r => .exceptMerge (if dst = "result" then new else dst) l r
  | .exceptFilter dst src => .exceptFilter (if dst = "result" then new else dst) src

mutual

/-- AdvancedCodeGenerator.generate. The only exception its try block can
raise on a pipeline IR is the unknown-main-table ValueError, answered by
the outer handler with the fallback code (two comment lines and a copy of
the main table). -/
def generate (ir : IR) (avail : List String) : List Stmt :=
  match ir with
  | .mk distinct columns fromC filters groupByC havingC ordering limitC setOps =>
    if ¬ avail.contains fromC.table then
      [.comment, .comment, .copyAssign "result" fromC.table]
    else
      let header := [Stmt.comment, Stmt.importNumpy]
      let s1p :=
        match fromC.aliasN with
        | some a => ([Stmt.copyAssign a fromC.table], a)
        | none => ([Stmt.copyAssign "result" fromC.table], "result")
      let s1 := s1p.1
      let df1 := s1p.2
      let s2p :=
        if ¬ fromC.joins.isEmpty then genJoinsGo fromC.joins.length 0 fromC.joins df1
        else ([], df1)
      let s2 := s2p.1
      let df2 := s2p.2
      let s3 :=
        match generateFilterCode filters with
        | some c => if c ≠ .trueLit then [Stmt.filterStmt df2 df2 c] else []
        | none => []
      let groupTrigger := groupByC.isSome ∨ hasAggregateFunctions columns ∨
        hasExpressions columns
      let s4p :=
        if groupTrigger then genGroupBy groupByC columns df2 else ([], df2)
      let s4 := s4p.1
      let df4 := s4p.2
      let s5 :=
        match generateFilterCode havingC with
        | some c =>
          if c ≠ .trueLit then [Stmt.filterStmt df4 df4 (havingTransform df4 c)]
          else []
        | none => []
      let s6 :=
        if ¬ groupTrigger then
          match generateColumnSelection columns with
          | .passthrough => [Stmt.assign df4 df4]
          | .selectT cols ren => [Stmt.selectColsStmt df4 df4 cols ren]
        else []
      let s7 := if distinct ∧ groupByC.isNone then [Stmt.dropDup df4 df4] else []
      let s8 :=
        match ordering with
        | some o => [Stmt.sortVals df4 df4 (genOrderKeys o)]
        | none => []
      let s9 :=
        match limitC with
        | some lc => [genLimitStmt df4 lc]
        | none => []
      let s10p :=
        if ¬ setOps.isEmpty then genSetOps setOps.length avail 0 setOps df4
        else ([], df4)
      let s10 := s10p.1
      let dfF := s10p.2
      let s11 := if dfF ≠ "result" then [Stmt.assign "result" dfF] else []
      header ++ s1 ++ s2 ++ s3 ++ s4 ++ s5 ++ s6 ++ s7 ++ s8 ++ s9 ++ s10 ++ s11

/-- AdvancedCodeGenerator._generate_set_operations: recursively generate
the right query, inline its non-comment lines with the result target
renamed, then combine. An absent right query is skipped (continue); an
unrecognized operation type emits nothing but still moves the current
frame name, as the source does. -/
def genSetOps (total : Nat) (avail : List String) :
    Nat → List SetOpIR → String → List Stmt × String
  | _, [], cur => ([], cur)
  | i, .mk opType allFlag rightQuery :: rest, cur =>
    match rightQuery with
    | none => genSetOps total avail (i + 1) rest cur
    | some rq =>
      let rname := "right_query_" ++ toString i
      let inlined :=
        ((generate rq avail).filter (fun s => ¬ isCommentStmt s)).map
          (renameResult rname)
      let resultVar := if i < total - 1 then "set_result_" ++ toString i else "result"
      let opStmts :=
        if (strUpper opType) = "UNION" then
          [Stmt.concatStmt resultVar cur rname (¬ allFlag)]
        else if (strUpper opType) = "INTERSECT" then
          [Stmt.comment, Stmt.mergeNoOn resultVar cur rname "inner"] ++
            (if ¬ allFlag then [Stmt.dropDup resultVar resultVar] else [])
        else if (strUpper opType) = "EXCEPT" then
          [Stmt.comment, Stmt.exceptMerge "merged" cur rname,
           Stmt.exceptFilter resultVar "merged"] ++
            (if ¬ allFlag then [Stmt.dropDup resultVar resultVar] else [])
        else []
      let rec1 := genSetOps total avail (i + 1) rest resultVar
      ([Stmt.comment] ++ inlined ++ opStmts ++ rec1.1, rec1.2)

end

/-! ## Executor (executor.py, PandasExecutor)

exec() runs the generated statements over exec_globals. Python name
binding and in-place mutation are modelled with a heap of table objects:
`datasets = data.copy()` is a shallow dict copy, so the caller's tables
are the heap cells at the initial addresses, and an in-place column
assignment through any name bound to such an address is visible to the
caller afterwards. -/

inductive Binding
  | addr (a : Nat)
  | pynone
  deriving DecidableEq, Repr

structure PyState where
  heap : List Table
  env : List (String × Binding)
  deriving DecidableEq, Repr

def envGet (st : PyState) (name : String) : Option Binding :=
  (st.env.find? (fun p => p.1 = name)).map (fun p => p.2)

def envSet (st : PyState) (name : String) (b : Binding) : PyState :=
  ⟨st.heap, dictInsert name b st.env⟩

/-- Read a name as a DataFrame (NameError when unbound, TypeError-like
failure when it is the initial None of result). -/
def getTable (st : PyState) (name : String) : Except String (Nat × Table) :=
  match envGet st name with
  | none => .error "NameError: name is not defined"
  | some .pynone => .error "TypeError: NoneType object is not a frame"
  | some (.addr a) =>
    match st.heap.get? a with
    | some t => .ok (a, t)
    | none => .error "invalid address"

/-- Allocate a fresh table object and bind a name to it. -/
def bindNew (st : PyState) (name : String) (t : Table) : PyState :=
  ⟨st.heap ++ [t], dictInsert name (.addr st.heap.length) st.env⟩

/-- Overwrite the object at an address (in-place mutation). -/
def writeHeap (st : PyState) (a : Nat) (t : Table) : PyState :=
  ⟨st.heap.set a t, st.env⟩

/-- `frame['c'] = scalar`: overwrite or append the column, broadcasting. -/
def setColConst (t : Table) (c : String) (v : Cell) : Table :=
  match colIdx t.cols c with
  | some i => ⟨t.cols, t.rows.map (fun r => r.set i v)⟩
  | none => ⟨t.cols ++ [c], t.rows.map (fun r => r ++ [v])⟩

def cellOfVal : SqlVal → Cell
  | .i n => .i n
  | .f q => .f q
  | .s v => .s v

/-- A boolean mask value: "(True)" is a scalar, atoms give vectors. -/
inductive MaskV
  | scalar (b : Bool)
  | vec (bs : List Bool)
  deriving DecidableEq, Repr

/-- Evaluate one comparison atom over the named frame. -/
def evalAtom (st : PyState) (tbl : String) (a : CmpAtom) :
    Except String (List Bool) := do
  let (_, t) ← getTable st tbl
  let getCol := fun (c : String) =>
    match t.column c with
    | some cs => Except.ok cs
    | none => Except.error "KeyError: column not found"
  match a with
  | .cmpOp col op v => do
    let cells ← getCol col
    match v with
    | .val sv =>
      let rhs := cellOfVal sv
      if op = "eq" then .ok (cells.map (fun c => cellEqB c rhs))
      else if op = "ne" then .ok (cells.map (fun c => ! cellEqB c rhs))
      else cells.mapM (fun c => cellRel op c rhs)
    | _ => .error "TypeError: unsupported comparison operand"
  | .isinA col v neg => do
    let cells ← getCol col
    match v with
    | .list vs =>
      let base := cells.map (fun c => vs.any (fun x => cellEqB c (cellOfVal x)))
      .ok (if neg then base.map (fun b => ! b) else base)
    | _ => .error "TypeError: only list-likes are allowed in isin"
  | .likeA col p neg => do
    let cells ← getCol col
    if cells.all (fun c => match c with | .s _ => true | .null => true | _ => false)
    then
      let base := cells.map fun c =>
        match c with
        | .s v => likeSearch (likeTokens p) v.toList
        | _ => false
      .ok (if neg then base.map (fun b => ! b) else base)
    else .error "AttributeError: str accessor on non-string values"
  | .betweenA col lo hi neg => do
    let cells ← getCol col
    match (cellOfVal lo).toRat?, (cellOfVal hi).toRat? with
    | some ql, some qh =>
      let base ← cells.mapM fun c =>
        match c with
        | .null => Except.ok false
        | _ =>
          match c.toRat? with
          | some q => Except.ok (decide (ql ≤ q) && decide (q ≤ qh))
          | none => Except.error "TypeError: unorderable types"
      .ok (if neg then base.map (fun b => ! b) else base)
    | _, _ =>
      -- string bounds render as bare identifiers in the generated code
      .error "NameError: name is not defined"
  | .isnullA col neg => do
    let cells ← getCol col
    let base := cells.map (fun c => decide (c = Cell.null))
    .ok (if neg then base.map (fun b => ! b) else base)

/-- Evaluate a filter expression: & and | combine masks elementwise,
broadcasting scalars; unequal vector lengths cannot be aligned. -/
def evalCond (st : PyState) : CondExpr → Except String MaskV
  | .trueLit => .ok (.scalar true)
  | .atom tbl a => (evalAtom st tbl a).map .vec
  | .andE l r => do
    let ml ← evalCond st l
    let mr ← evalCond st r
    match ml, mr with
    | .scalar a, .scalar b => .ok (.scalar (a && b))
    | .scalar a, .vec bs => .ok (.vec (bs.map (fun b => a && b)))
    | .vec bs, .scalar a => .ok (.vec (bs.map (fun b => b && a)))
    | .vec as', .vec bs =>
      if as'.length = bs.length then .ok (.vec (as'.zipWith (fun a b => a && b) bs))
      else .error "IndexingError: unalignable boolean masks"
  | .orE l r => do
    let ml ← evalCond st l
    let mr ← evalCond st r
    match ml, mr with
    | .scalar a, .scalar b => .ok (.scalar (a || b))
    | .scalar a, .vec bs => .ok (.vec (bs.map (fun b => a || b)))
    | .vec bs, .scalar a => .ok (.vec (bs.map (fun b => b || a)))
    | .vec as', .vec bs =>
      if as'.length = bs.length then .ok (.vec (as'.zipWith (fun a b => a || b) bs))
      else .error "IndexingError: unalignable boolean masks"

def aggItemAlias : AggItem → String
  | .size a => a
  | .colFunc a _ _ => a

/-- Drop a named column. -/
def dropColumn (t : Table) (col : String) : Except String Table :=
  match colIdx t.cols col with
  | none => .error "KeyError: drop column not found"
  | some i => .ok ⟨t.cols.eraseIdx i, t.rows.map (fun r => r.eraseIdx i)⟩

/-- One statement of exec(). -/
def execStmt (st : PyState) : Stmt → Except String PyState
  | .comment => .ok st
  | .importNumpy => .ok st
  | .copyAssign dst src => do
    let (_, t) ← getTable st src
    .ok (bindNew st dst t)
  | .setColOne x col => do
    let (a, t) ← getTable st x
    .ok (writeHeap st a (setColConst t col (.i 1)))
  | .assign dst src =>
    match envGet st src with
    | none => .error "NameError: name is not defined"
    | some b => .ok (envSet st dst b)
  | .mergeKey dst l r key => do
    let (_, tl) ← getTable st l
    let (_, tr) ← getTable st r
    let tm ← pdMerge "inner" [(key, key)] tl tr false
    .ok (bindNew st dst tm)
  | .dropColAssign dst src col => do
    let (_, t) ← getTable st src
    let t' ← dropColumn t col
    .ok (bindNew st dst t')
  | .tryMerge dst dropSrc l r how onc => do
    let (la, tl) ← getTable st l
    let (ra, tr) ← getTable st r
    let tryRes : Option Table :=
      match onc with
      | .byCols lOn rOn =>
        if tl.cols.contains lOn ∧ tr.cols.contains rOn then
          match pdMerge how [(lOn, rOn)] tl tr false with
          | .ok t => some t
          | .error _ => none
        else none
      | .byIndex => some (pdMergeIndex how tl tr)
    match tryRes with
    | some t => .ok (bindNew st dst t)
    | none =>
      -- the except branch: temp keys are written in place (mutating the
      -- two frame objects), the keyed merge is bound, then the drop
      -- source is re-read and the key column dropped
      let tl' := setColConst tl "_temp_key" (.i 1)
      let tr' := setColConst tr "_temp_key" (.i 1)
      let st1 := writeHeap (writeHeap st la tl') ra tr'
      let tl2 := (st1.heap.get? la).getD tl'
      let tr2 := (st1.heap.get? ra).getD tr'
      let tm ← pdMerge how [("_temp_key", "_temp_key")] tl2 tr2 false
      let st2 := bindNew st1 dst tm
      let (_, td) ← getTable st2 dropSrc
      let td' ← dropColumn td "_temp_key"
      .ok (bindNew st2 dst td')
  | .filterStmt dst src cond => do
    let (_, t) ← getTable st src
    let m ← evalCond st cond
    match m with
    | .scalar _ => .error "KeyError: scalar boolean index"
    | .vec bs =>
      if bs.length = t.rows.length then
        .ok (bindNew st dst
          ⟨t.cols, ((t.rows.zip bs).filter (fun p => p.2)).map (fun p => p.1)⟩)
      else .error "IndexingError: unalignable boolean mask"
  | .selectColsStmt dst src cols ren => do
    let (_, t) ← getTable st src
    if cols.all (fun c => t.cols.contains c) then
      let newNames := cols.map fun c =>
        match ren.find? (fun p => p.1 = c) with
        | some p => p.2
        | none => c
      .ok (bindNew st dst
        ⟨newNames, t.rows.map (fun r => cols.map (fun c => (rowCell t.cols r c).getD .null))⟩)
    else .error "KeyError: column not found"
  | .dropDup dst src => do
    let (_, t) ← getTable st src
    .ok (bindNew st dst ⟨t.cols, dedupRows t.rows⟩)
  | .sortVals dst src keys => do
    let (_, t) ← getTable st src
    let t' ← sortTable keys t
    .ok (bindNew st dst t')
  | .limitHead dst src n => do
    let (_, t) ← getTable st src
    let rows := if n ≥ 0 then t.rows.take n.toNat else t.rows.dropLast
    .ok (bindNew st dst ⟨t.cols, rows⟩)
  | .limitSlice dst src a b => do
    let (_, t) ← getTable st src
    .ok (bindNew st dst ⟨t.cols, (t.rows.drop a.toNat).take (b - a).toNat⟩)
  | .groupSize dst src keys aliasName => do
    let (_, t) ← getTable st src
    let t' ← pdGroupSize keys aliasName t
    .ok (bindNew st dst t')
  | .groupAggMulti _dst src keys _items => do
    let (_, t) ← getTable st src
    -- grouped.agg with an alias-keyed dict of (column, function) tuples is
    -- rejected by pandas (the keys are not existing columns / nested
    -- renamers are unsupported), so this block always raises
    if keys.all (fun k => t.cols.contains k) then
      .error "SpecificationError: nested renamer is not supported"
    else .error "KeyError: group column not found"
  | .groupFirst dst src keys => do
    let (_, t) ← getTable st src
    let t' ← pdGroupFirst keys t
    .ok (bindNew st dst t')
  | .aggNoGroup dst src items => do
    let (_, t) ← getTable st src
    let cells ← items.mapM fun it =>
      match it with
      | .size _ => Except.ok (Cell.i t.rows.length)
      | .colFunc _ c f =>
        match t.column c with
        | some cs => aggColumn f cs
        | none => Except.error "KeyError: column not found"
    .ok (bindNew st dst ⟨items.map aggItemAlias, [cells]⟩)
  | .concatStmt dst l r dedup => do
    let (_, tl) ← getTable st l
    let (_, tr) ← getTable st r
    let c := pdConcat tl tr
    .ok (bindNew st dst (if dedup then ⟨c.cols, dedupRows c.rows⟩ else c))
  | .mergeNoOn dst l r how => do
    let (_, tl) ← getTable st l
    let (_, tr) ← getTable st r
    let common := tl.cols.filter (fun c => tr.cols.contains c)
    if common.isEmpty then .error "MergeError: no common columns to merge on"
    else do
      let tm ← pdMerge how (common.map (fun c => (c, c))) tl tr false
      .ok (bindNew st dst tm)
  | .exceptMerge dst l r => do
    let (_, tl) ← getTable st l
    let (_, tr) ← getTable st r
    let common := tl.cols.filter (fun c => tr.cols.contains c)
    if common.isEmpty then .error "MergeError: no common columns to merge on"
    else do
      let tm ← pdMerge "left" (common.map (fun c => (c, c))) tl tr true
      .ok (bindNew st dst tm)
  | .exceptFilter dst src => do
    let (_, t) ← getTable st src
    match colIdx t.cols "_merge" with
    | none => .error "KeyError: _merge"
    | some i =>
      let kept := t.rows.filter (fun r => r.getD i .null = Cell.s "left_only")
      .ok (bindNew st dst ⟨t.cols.eraseIdx i, kept.map (fun r => r.eraseIdx i)⟩)

/-- Run statements until the first raised exception, keeping the state at
the failure point (the caller's objects stay observable either way). -/
def execStmtsAcc : List Stmt → PyState → PyState × Option String
  | [], st => (st, none)
  | s :: rest, st =>
    match execStmt st s with
    | .error e => (st, some e)
    | .ok st' => execStmtsAcc rest st'

/-! ### _validate_data -/

def atomCol : CmpAtom → String
  | .cmpOp c _ _ => c
  | .isinA c _ _ => c
  | .likeA c _ _ => c
  | .betweenA c _ _ _ => c
  | .isnullA c _ => c

/-- Columns a filter expression mentions through the literal text
`result['col']` (only atoms targeting the name result match the regex). -/
def condRefCols : CondExpr → List String
  | .trueLit => []
  | .andE l r => condRefCols l ++ condRefCols r
  | .orE l r => condRefCols l ++ condRefCols r
  | .atom tbl a => if tbl = "result" then [atomCol a] else []

/-- The matches of `result\['([^']+)'\]` over one rendered statement. -/
def stmtRefCols : Stmt → List String
  | .filterStmt _ _ c => condRefCols c
  | .setColOne x c => if x = "result" then [c] else []
  | .tryMerge _ _ l r _ _ =>
    (if l = "result" then ["_temp_key"] else []) ++
      (if r = "result" then ["_temp_key"] else [])
  | .aggNoGroup _ src items =>
    if src = "result" then
      items.filterMap fun it =>
        match it with
        | .colFunc _ c _ => some c
        | .size _ => none
    else []
  | .exceptFilter _ src => if src = "result" then ["_merge"] else []
  | _ => []

def referencedColumns (stmts : List Stmt) : List String :=
  stmts.flatMap stmtRefCols

/-- PandasExecutor._validate_data: reject an empty dict, reject any empty
DataFrame, and for single-table code check the referenced columns. -/
def validateData (datasets : List (String × Table)) (stmts : List Stmt) :
    Except String Unit :=
  if datasets.isEmpty then .error "No datasets provided"
  else
    match datasets.find? (fun p => p.2.isEmptyT) with
    | some p => .error ("Dataset is empty: " ++ p.1)
    | none =>
      let refs := referencedColumns stmts
      if datasets.length = 1 ∧ ¬ refs.isEmpty then
        let cols := (datasets.headD ("", ⟨[], []⟩)).2.cols
        if (refs.filter (fun c => ¬ cols.contains c)).isEmpty then .ok ()
        else .error "Missing columns"
      else .ok ()

/-! ### execute -/

/-- exec_globals: result is None, df is the first dataset object (an empty
frame when there are none), then all dataset bindings; the dict update
order lets a dataset named result or df shadow those entries. -/
def initState (data : List (String × Table)) : PyState :=
  let heap := if data.isEmpty then [(⟨[], []⟩ : Table)] else data.map (fun p => p.2)
  let env0 := dictInsert "df" (Binding.addr 0) [("result", Binding.pynone)]
  let env := (data.enum).foldl
    (fun e p => dictInsert p.2.1 (Binding.addr p.1) e) env0
  ⟨heap, env⟩

/-- PandasExecutor.execute, with the final state kept so that the caller's
table objects remain observable. Every failure (validation, statement
execution, missing result) surfaces as an error. -/
def executeRun (stmts : List Stmt) (data : List (String × Table)) :
    Except String Table × PyState :=
  let st0 := initState data
  match validateData data stmts with
  | .error e => (.error ("Execution error: " ++ e), st0)
  | .ok _ =>
    let (st, err) := execStmtsAcc stmts st0
    match err with
    | some e => (.error ("Execution error: " ++ e), st)
    | none =>
      match envGet st "result" with
      | none => (.error "Code execution did not produce a result", st)
      | some .pynone => (.error "Code execution did not produce a result", st)
      | some (.addr a) =>
        match st.heap.get? a with
        | some t => (.ok t, st)
        | none => (.error "invalid address", st)

def execute (stmts : List Stmt) (data : List (String × Table)) :
    Except String Table :=
  (executeRun stmts data).1

/-- The caller's view of its own tables after an execution (the objects
at the addresses its dict entries point to). -/
def callerTablesAfter (stmts : List Stmt) (data : List (String × Table)) :
    List (String × Table) :=
  let st := (executeRun stmts data).2
  (data.enum).map fun p => (p.2.1, st.heap.getD p.1 ⟨[], []⟩)

/-! ### The composed pipeline of main.py -/

/-- Lexer, parser and IR generator composed (the compile half of the
pipeline). The parser fuel is amply larger than the token count. -/
def compileSQL (text : String) : Except String IR := do
  let ts ← tokenize text
  let ast ← parseSQL ts (ts.length * 40 + 40)
  irGenerate ast

/-- The full pipeline: compile, generate pandas code against the dataset
names, execute against the datasets. -/
def runQuery (text : String) (data : List (String × Table)) :
    Except String Table := do
  let ir ← compileSQL text
  execute (generate ir (data.map (fun p => p.1))) data

/-! ## Theorems -/

/-! ### C9 — NUMBER token lexemes -/

/-- The shape a NUMBER lexeme actually has: nonempty, a digit first, then
any mix of digits and dots (the scanner consumes dots greedily, so more
than one dot is possible). -/
def numberLexemeShape (s : String) : Bool :=
  match s.toList with
  | [] => false
  | c :: rest => isDigitC c && rest.all isNumChar

lemma keywordTable_ne_number : ∀ p ∈ keywordTable, p.2 ≠ Tk.litNUMBER := by
  decide

lemma keywordLookup_ne_number (s : String) : keywordLookup s ≠ Tk.litNUMBER := by
  unfold keywordLookup
  cases hf : keywordTable.find? (fun p => p.1 = s) with
  | none => simp [hf]
  | some p =>
    have hm := keywordTable_ne_number p (List.mem_of_find?_eq_some hf)
    simp [hf, hm]

lemma twoCharOp_ne_number (c1 c2 : Char) : twoCharOp c1 c2 ≠ some Tk.litNUMBER := by
  unfold twoCharOp
  split_ifs <;> simp

lemma oneCharOp_ne_number (c : Char) : oneCharOp c ≠ some Tk.litNUMBER := by
  unfold oneCharOp
  split_ifs <;> simp

lemma punctOp_ne_number (c : Char) : punctOp c ≠ some Tk.litNUMBER := by
  unfold punctOp
  split_ifs <;> simp

lemma peekTwo_ne_number (c : Char) (cs : List Char) :
    (match cs with | c2 :: _ => twoCharOp c c2 | [] => none) ≠
      some Tk.litNUMBER := by
  cases cs <;> simp [twoCharOp_ne_number]

/-- The only loop branch that emits a NUMBER token is the digit branch,
whose lexeme is the leading digit followed by the greedy digits-and-dots
run. -/
lemma lexStep_number {c : Char} {cs : List Char} {lex rest : List Char}
    (h : lexStep c cs = LexAct.emit Tk.litNUMBER lex rest) :
    isDigitC c = true ∧ lex = c :: cs.takeWhile isNumChar := by
  unfold lexStep at h
  by_cases hws : c.isWhitespace
  · simp [hws] at h
  · rw [if_neg (by simp [hws])] at h
    cases htwo : (match cs with | c2 :: _ => twoCharOp c c2 | [] => none) with
    | some t =>
      rw [htwo] at h
      simp only [LexAct.emit.injEq] at h
      exact absurd (h.1 ▸ htwo) (peekTwo_ne_number c cs)
    | none =>
      rw [htwo] at h
      cases hone : oneCharOp c with
      | some t =>
        rw [hone] at h
        simp only [LexAct.emit.injEq] at h
        exact absurd (h.1 ▸ hone) (oneCharOp_ne_number c)
      | none =>
        rw [hone] at h
        cases hpunct : punctOp c with
        | some t =>
          rw [hpunct] at h
          simp only [LexAct.emit.injEq] at h
          exact absurd (h.1 ▸ hpunct) (punctOp_ne_number c)
        | none =>
          rw [hpunct] at h
          by_cases hq : c = '"' ∨ c = '\''
          · rw [if_pos hq] at h
            cases hdrop : cs.drop (cs.takeWhile (fun d => d ≠ c)).length with
            | nil => rw [hdrop] at h; simp at h
            | cons hd r => rw [hdrop] at h; simp at h
          · rw [if_neg hq] at h
            by_cases hd : isDigitC c
            · rw [if_pos hd] at h
              simp only [LexAct.emit.injEq] at h
              exact ⟨hd, h.2.1.symm⟩
            · rw [if_neg hd] at h
              by_cases ha : isAlphaC c ∨ c = '_'
              · rw [if_pos ha] at h
                simp only [LexAct.emit.injEq] at h
                exact absurd h.1 (by simp)
              · rw [if_neg ha] at h
                simp at h

lemma scanLine_number :
    ∀ (fuel lineno : Nat) (cs : List Char) (col : Nat) (toks : List Token),
      scanLine lineno fuel cs col = .ok toks →
      ∀ tok ∈ toks, tok.type = Tk.litNUMBER →
        numberLexemeShape tok.value = true := by
  intro fuel
  induction fuel with
  | zero =>
    intro lineno cs col toks h
    simp [scanLine] at h
  | succ fuel ih =>
    intro lineno cs col toks h tok htok htype
    match cs with
    | [] =>
      rw [scanLine] at h
      cases h
      cases htok
    | c :: cs' =>
      rw [scanLine] at h
      split at h
      · -- whitespace skip
        exact ih lineno cs' (col + 1) toks h tok htok htype
      · -- emit branch
        rename_i t lex rest hstep
        split at h
        · cases h
        · rename_i restToks hrest
          cases h
          rcases List.mem_cons.mp htok with rfl | hmem
          · -- the freshly emitted token
            by_cases hid : t = Tk.litIDENTIFIER
            · rw [if_pos hid] at htype
              exact absurd htype (keywordLookup_ne_number _)
            · rw [if_neg hid] at htype
              subst htype
              obtain ⟨hd, hlex⟩ := lexStep_number hstep
              subst hlex
              show (isDigitC c && (cs'.takeWhile isNumChar).all isNumChar) = true
              rw [Bool.and_eq_true]
              refine ⟨hd, ?_⟩
              rw [List.all_eq_true]
              exact fun x hx => List.mem_takeWhile_imp hx
          · exact ih lineno rest (col + (String.mk lex).length) restToks hrest
              tok hmem htype
      · -- unexpected character
        cases h

lemma tokenizeLines_number :
    ∀ (lineno : Nat) (lines : List String) (toks : List Token),
      tokenizeLines lineno lines = .ok toks →
      ∀ tok ∈ toks, tok.type = Tk.litNUMBER →
        numberLexemeShape tok.value = true := by
  intro lineno lines
  induction lines generalizing lineno with
  | nil =>
    intro toks h tok htok
    rw [tokenizeLines] at h
    cases h
    cases htok
  | cons l ls ih =>
    intro toks h tok htok htype
    rw [tokenizeLines] at h
    split at h
    · cases h
    · rename_i lineToks hline
      split at h
      · cases h
      · rename_i restToks hrest
        cases h
        rcases List.mem_append.mp htok with hm | hm
        · exact scanLine_number _ _ _ _ _ hline tok hm htype
        · exact ih (lineno + 1) restToks hrest tok hm htype

/-- C9 (counterexample): the claim that every NUMBER token lexeme is a
simple decimal — digits and at most one dot — is false: the input 1.2.3
tokenizes successfully into a single NUMBER token whose lexeme carries two
dots. -/
theorem c9_counterexample_two_dots :
    ¬ (∀ (text : String) (ts : List Token), tokenize text = .ok ts →
        ∀ tok ∈ ts, tok.type = Tk.litNUMBER →
          tok.value.toList.all isNumChar = true ∧
            tok.value.toList.count '.' ≤ 1) := by
  intro hclaim
  have h := hclaim "1.2.3" [⟨Tk.litNUMBER, "1.2.3", 1, 0⟩] (by rfl)
    ⟨Tk.litNUMBER, "1.2.3", 1, 0⟩ (by simp) rfl
  exact absurd h.2 (by decide)

/-- C9 (amended): every NUMBER token produced by tokenize starts with a
digit and consists only of digits and dots; the scanner consumes dots
greedily, so the lexeme may contain more than one dot (1.2.3 is a single
NUMBER token). -/
theorem c9_number_lexeme_digits_and_dots (text : String) (ts : List Token)
    (h : tokenize text = .ok ts) :
    ∀ tok ∈ ts, tok.type = Tk.litNUMBER → numberLexemeShape tok.value = true :=
  tokenizeLines_number 1 ((splitLinesCh text.toList).map String.mk) ts h

/-- Witness for C9: the amended theorem applied to the input 1.2.3. -/
theorem c9_number_lexeme_digits_and_dots_witness :
    numberLexemeShape "1.2.3" = true :=
  c9_number_lexeme_digits_and_dots "1.2.3" [⟨Tk.litNUMBER, "1.2.3", 1, 0⟩]
    (by rfl) ⟨Tk.litNUMBER, "1.2.3", 1, 0⟩ (by simp) rfl

/-! ### C7 — LIMIT/OFFSET semantics -/

/-- The statements the limit step can emit. -/
def isLimitStmt : Stmt → Bool
  | .limitHead _ _ _ => true
  | .limitSlice _ _ _ _ => true
  | _ => false

theorem genJoinsGo_no_limit (total : Nat) (js : List IRJoin) :
    ∀ (i : Nat) (cur : String), ∀ s ∈ (genJoinsGo total i js cur).1,
      isLimitStmt s = false := by
  induction js with
  | nil =>
    intro i cur s hs
    rw [genJoinsGo] at hs
    simp at hs
  | cons j rest ih =>
    intro i cur s hs
    rw [genJoinsGo] at hs
    rcases List.mem_append.1 hs with h | h
    · by_cases hcr : (strUpper j.jtype) = "CROSS"
      · rw [if_pos hcr] at h
        rcases List.mem_append.1 h with h | h
        · cases halias : j.aliasN <;> rw [halias] at h <;> simp at h
          obtain rfl := h
          rfl
        · simp only [List.mem_cons, List.not_mem_nil, or_false] at h
          rcases h with rfl | rfl | rfl | rfl <;> rfl
      · rw [if_neg hcr] at h
        rcases List.mem_append.1 h with h | h
        · cases halias : j.aliasN <;> rw [halias] at h <;> simp at h
          obtain rfl := h
          rfl
        · simp only [List.mem_cons, List.not_mem_nil, or_false] at h
          obtain rfl := h
          rfl
    · exact ih (i + 1) _ s h

theorem genGroupBy_no_limit (g : Option (List String)) (cols : List IRColumn)
    (df : String) : ∀ s ∈ (genGroupBy g cols df).1, isLimitStmt s = false := by
  intro s hs
  rw [genGroupBy] at hs
  dsimp only at hs
  repeat' split at hs
  all_goals
    first
    | (dsimp only at hs;
       simp only [List.mem_cons, List.not_mem_nil, or_false] at hs;
       subst hs; rfl)
    | simp at hs

theorem generate_no_limit (ir : IR) (avail : List String)
    (h1 : ir.limitC = none) (h2 : ir.setOps = []) :
    ∀ s ∈ generate ir avail, isLimitStmt s = false := by
  obtain ⟨distinct, columns, fromC, filters, groupByC, havingC, ordering,
    limitC, setOps⟩ := ir
  replace h1 : limitC = none := h1
  replace h2 : setOps = [] := h2
  subst h1 h2
  intro s hs
  rw [generate] at hs
  split at hs
  · simp only [List.mem_cons, List.not_mem_nil, or_false] at hs
    rcases hs with rfl | rfl | rfl <;> rfl
  · dsimp only at hs
    simp only [List.append_assoc, List.mem_append] at hs
    rcases hs with hs | hs | hs | hs | hs | hs | hs | hs | hs | hs | hs | hs
    all_goals repeat' split at hs
    all_goals
      first
      | ((try dsimp only at hs);
         (try simp only [List.mem_cons, List.not_mem_nil, or_false] at hs);
         subst hs; rfl)
      | ((try dsimp only at hs);
         (try simp only [List.mem_cons, List.not_mem_nil, or_false] at hs);
         rcases hs with rfl | rfl <;> rfl)
      | exact genJoinsGo_no_limit _ _ _ _ s hs
      | exact genGroupBy_no_limit _ _ _ s hs
      | (exfalso; apply absurd List.isEmpty_nil; assumption)
      | simp at hs

/-- C7: LIMIT n OFFSET m slices the rows to [m, m+n): with m at or past the
row count the result keeps the column schema and has zero rows; LIMIT 0
keeps zero rows; and a plan without LIMIT contains no limit statement at
all, so every row survives that (absent) step. -/
theorem c7_limit_offset (st : PyState) (df : String) (a : Nat) (t : Table)
    (n m : Int) (hget : getTable st df = .ok (a, t)) (hn : 0 ≤ n)
    (hm : 0 ≤ m) :
    execStmt st (genLimitStmt df ⟨n, some m⟩) =
      .ok (bindNew st df ⟨t.cols, (t.rows.drop m.toNat).take n.toNat⟩) ∧
    (t.rows.length ≤ m.toNat →
      execStmt st (genLimitStmt df ⟨n, some m⟩) =
        .ok (bindNew st df ⟨t.cols, []⟩)) ∧
    execStmt st (genLimitStmt df ⟨(0 : Int), none⟩) =
      .ok (bindNew st df ⟨t.cols, []⟩) ∧
    (∀ (ir : IR) (avail : List String), ir.limitC = none → ir.setOps = [] →
      ∀ s ∈ generate ir avail, isLimitStmt s = false) := by
  have hmain : execStmt st (genLimitStmt df ⟨n, some m⟩) =
      .ok (bindNew st df ⟨t.cols, (t.rows.drop m.toNat).take n.toNat⟩) := by
    rw [genLimitStmt]
    by_cases hm0 : m = 0
    · subst hm0
      simp only [Option.getD_some, ne_eq, not_true_eq_false, ite_false,
        not_false_iff]
      rw [execStmt, hget]
      simp only [Int.toNat_zero, List.drop_zero, ge_iff_le, hn, ite_true]
      rfl
    · simp only [Option.getD_some, ne_eq, hm0, not_false_iff, ite_true]
      rw [execStmt, hget]
      show Except.ok (bindNew st df
          ⟨t.cols, (t.rows.drop m.toNat).take (m + n - m).toNat⟩) = _
      rw [add_sub_cancel_left]
  refine ⟨hmain, ?_, ?_, fun ir avail h1 h2 => generate_no_limit ir avail h1 h2⟩
  · intro hlen
    rw [hmain, List.drop_eq_nil_of_le hlen, List.take_nil]
  · rw [genLimitStmt]
    simp only [Option.getD_none, ne_eq, not_true_eq_false, ite_false]
    rw [execStmt, hget]
    simp only [Int.toNat_zero, List.take_zero, ge_iff_le, le_refl, ite_true]
    rfl

/-- Witness for C7 on a two-row table: LIMIT 1 OFFSET 5 (offset past the
row count) yields the empty table with the same single-column schema. -/
theorem c7_limit_offset_witness :
    execStmt ⟨[⟨["a"], [[Cell.i 1], [Cell.i 2]]⟩], [("df", .addr 0)]⟩
      (genLimitStmt "df" ⟨(1 : Int), some (5 : Int)⟩) =
    .ok (bindNew ⟨[⟨["a"], [[Cell.i 1], [Cell.i 2]]⟩], [("df", .addr 0)]⟩
      "df" ⟨["a"], []⟩) :=
  (c7_limit_offset ⟨[⟨["a"], [[Cell.i 1], [Cell.i 2]]⟩], [("df", .addr 0)]⟩
    "df" 0 ⟨["a"], [[Cell.i 1], [Cell.i 2]]⟩ 1 5 rfl (by decide)
    (by decide)).2.1 (by decide)

/-! ### C10 — empty inputs are rejected before execution -/

/-- C10: _validate_data rejects any environment binding an empty table: if
any dataset has zero rows, execute fails with the dataset-is-empty
execution error (whether or not the query references that table), and the
failure happens before any generated statement runs — the final state is
still the initial one. -/
theorem c10_empty_input_rejected (stmts : List Stmt)
    (data : List (String × Table)) (name : String) (t : Table)
    (hmem : (name, t) ∈ data) (hempty : t.rows = []) :
    (∃ nm, execute stmts data =
      .error ("Execution error: " ++ ("Dataset is empty: " ++ nm))) ∧
    (executeRun stmts data).2 = initState data := by
  have hemp : (fun (p : String × Table) => p.2.isEmptyT) (name, t) = true := by
    simp [Table.isEmptyT, hempty]
  have hfind : (data.find? (fun p => p.2.isEmptyT)).isSome :=
    List.find?_isSome.2 ⟨(name, t), hmem, hemp⟩
  obtain ⟨q, hq⟩ := Option.isSome_iff_exists.1 hfind
  have hval : validateData data stmts =
      .error ("Dataset is empty: " ++ q.1) := by
    rw [validateData,
        if_neg (by simp [List.isEmpty_iff, List.ne_nil_of_mem hmem]), hq]
  refine ⟨⟨q.1, ?_⟩, ?_⟩
  · rw [execute, executeRun, hval]
  · rw [executeRun, hval]

/-- Witness for C10: a one-column zero-row dataset is rejected even though
the (empty) statement list references nothing. -/
theorem c10_empty_input_rejected_witness :
    (∃ nm, execute [] [("t", ⟨["a"], []⟩)] =
      .error ("Execution error: " ++ ("Dataset is empty: " ++ nm))) ∧
    (executeRun [] [("t", ⟨["a"], []⟩)]).2 = initState [("t", ⟨["a"], []⟩)] :=
  c10_empty_input_rejected [] [("t", ⟨["a"], []⟩)] "t" ⟨["a"], []⟩
    (List.mem_singleton.2 rfl) rfl

theorem pureE_ok {α : Type} {a b : α} (h : (Except.ok a : Except String α) = .ok b) :
    a = b := by
  injection h

/-! ### C1 — SELECT * round trip -/

theorem bindE_map_ok {α β γ : Type} {x : Except String α} {f : α → β}
    {b : β} (h : x.map f = .ok b) (g : β → Except String γ) :
    x.bind (fun a => g (f a)) = g b := by
  cases x with
  | error e => exact absurd h (by simp [Except.map])
  | ok a =>
    have : f a = b := by simpa [Except.map] using h
    simp [Except.bind, this]

/-- The statements compiled from `SELECT * FROM t` over dataset `t`. -/
def selectStarStmts : List Stmt :=
  [Stmt.comment, Stmt.importNumpy, Stmt.copyAssign "result" "t",
   Stmt.assign "result" "result"]

theorem selectStar_compiles :
    (compileSQL "SELECT * FROM t").map (fun ir => generate ir ["t"]) =
      .ok selectStarStmts := rfl

/-- C1 (amended): the round trip holds for every table with at least one
row and at least one column; execute's validation rejects any empty
table (see the counterexample), so the zero-row case of the claim fails. -/
theorem c1_select_star_round_trip (T : Table) (hr : T.rows ≠ [])
    (hc : T.cols ≠ []) :
    runQuery "SELECT * FROM t" [("t", T)] = .ok T := by
  have hrE : T.rows.isEmpty = false := by simp [hr]
  have hcE : T.cols.isEmpty = false := by simp [hc]
  have hT : T.isEmptyT = false := by simp [Table.isEmptyT, hrE, hcE]
  have hval : validateData [("t", T)] selectStarStmts = .ok () := by
    rw [validateData]
    rw [if_neg (by simp)]
    have hfind : List.find? (fun (p : String × Table) => p.2.isEmptyT)
        [("t", T)] = none := by
      simp only [List.find?, hT]
    rw [hfind]
    rfl
  have hrest : execute selectStarStmts [("t", T)] = .ok T := by
    rw [execute, executeRun, hval]
    rfl
  rw [runQuery]
  exact (bindE_map_ok selectStar_compiles
    (fun s => execute s [("t", T)])).trans hrest

/-- Counterexample for C1 as stated: the round trip fails for a zero-row
table, which execute rejects with a dataset-is-empty error. -/
theorem c1_counterexample_empty_table :
    ¬ (∀ (T : Table), runQuery "SELECT * FROM t" [("t", T)] = .ok T) := by
  intro hclaim
  have h := hclaim ⟨["a"], []⟩
  rw [show runQuery "SELECT * FROM t" [("t", (⟨["a"], []⟩ : Table))] =
      .error "Execution error: Dataset is empty: t" from rfl] at h
  exact Except.noConfusion h

/-- Witness for C1 on a one-row table. -/
theorem c1_select_star_round_trip_witness :
    runQuery "SELECT * FROM t" [("t", ⟨["a"], [[Cell.i 5]]⟩)] =
      .ok ⟨["a"], [[Cell.i 5]]⟩ :=
  c1_select_star_round_trip ⟨["a"], [[Cell.i 5]]⟩ (by simp) (by simp)

/-! ### C3 — failed filter code generation is silently dropped -/

/-- C3 (amended): when a WHERE clause's comparison code generation fails
internally (the handler turns it into the degenerate "(True)" condition,
e.g. LIKE applied to an integer literal), generate emits no filter
statement at all: the generated program is exactly the program of the same
plan without the filter, and execution proceeds without any error. -/
theorem c3_failed_filter_dropped (d : Bool) (cs : List IRColumn)
    (fr : FromIR) (fil : Option CondIR) (g : Option (List String))
    (hv : Option CondIR) (o : Option (List IROrderCol))
    (l : Option IRLimit) (s : List SetOpIR) (avail : List String)
    (hfil : generateFilterCode fil = some CondExpr.trueLit) :
    (∀ (col : String) (n : Int),
      generateComparisonCode col "like" (.val (.i n)) = .trueLit) ∧
    generate (.mk d cs fr fil g hv o l s) avail =
      generate (.mk d cs fr none g hv o l s) avail := by
  refine ⟨fun col n => rfl, ?_⟩
  simp only [generate]
  rw [hfil]
  rfl

/-- Counterexample for C3 as stated: a query whose WHERE clause fails code
generation (its condition collapses to "(True)") does not surface any
error — the pipeline succeeds and returns the unfiltered table. -/
theorem c3_counterexample_like_integer :
    ¬ (∀ (q : String) (data : List (String × Table)),
        (compileSQL q).map (fun ir => generateFilterCode ir.filters) =
          .ok (some CondExpr.trueLit) →
        ∃ e, runQuery q data = .error e) := by
  intro hclaim
  obtain ⟨e, he⟩ := hclaim "SELECT * FROM t WHERE a LIKE 5"
    [("t", ⟨["a"], [[Cell.i 1]]⟩)] rfl
  rw [show runQuery "SELECT * FROM t WHERE a LIKE 5"
      [("t", (⟨["a"], [[Cell.i 1]]⟩ : Table))] =
      .ok ⟨["a"], [[Cell.i 1]]⟩ from rfl] at he
  exact Except.noConfusion he

/-- Witness for C3: the LIKE-on-integer filter of
`SELECT * FROM t WHERE a LIKE 5` is dropped from the generated program. -/
theorem c3_failed_filter_dropped_witness :
    generate (.mk false [⟨"*", none, none, none⟩] ⟨"t", none, []⟩
        (some (.cmp "a" "like" (.val (.i 5)) "integer")) none none none none [])
      ["t"] =
    generate (.mk false [⟨"*", none, none, none⟩] ⟨"t", none, []⟩
        none none none none none []) ["t"] :=
  (c3_failed_filter_dropped false [⟨"*", none, none, none⟩] ⟨"t", none, []⟩
    (some (.cmp "a" "like" (.val (.i 5)) "integer")) none none none none []
    ["t"] rfl).2

theorem bindE_ok {α β : Type} {x : Except String α} {k : α → Except String β} {b : β}
    (h : x.bind k = .ok b) : ∃ a, x = .ok a ∧ k a = .ok b := by
  cases x with
  | error e => exact absurd h (by simp [Except.bind])
  | ok a => exact ⟨a, rfl, by simpa [Except.bind] using h⟩

/-! ### C2 — in-place mutation of input tables -/

/-- The statements whose execution writes an existing heap object in
place (the cross-join key columns and the try/except join fallback). -/
def isMutStmt : Stmt → Bool
  | .setColOne _ _ => true
  | .tryMerge _ _ _ _ _ _ => true
  | _ => false

theorem execStmt_heap_extends (st : PyState) (s : Stmt) (st2 : PyState)
    (hmut : isMutStmt s = false) (h : execStmt st s = .ok st2) :
    ∃ ext, st2.heap = st.heap ++ ext := by
  cases s <;> try exact Bool.noConfusion hmut
  all_goals simp only [execStmt] at h
  all_goals
    repeat
      first
      | exact Except.noConfusion h
      | (obtain rfl := pureE_ok h
         first
         | exact ⟨_, rfl⟩
         | exact ⟨[], (List.append_nil _).symm⟩)
      | split at h
      | (obtain ⟨⟨_, _⟩, _, h⟩ := bindE_ok h)
      | (obtain ⟨_, _, h⟩ := bindE_ok h)

theorem execStmtsAcc_heap_extends (stmts : List Stmt) (st : PyState)
    (hall : ∀ s ∈ stmts, isMutStmt s = false) :
    ∃ ext, (execStmtsAcc stmts st).1.heap = st.heap ++ ext := by
  induction stmts generalizing st with
  | nil => exact ⟨[], (List.append_nil _).symm⟩
  | cons s rest ih =>
    rw [execStmtsAcc]
    cases hex : execStmt st s with
    | error e => exact ⟨[], (List.append_nil _).symm⟩
    | ok st1 =>
      obtain ⟨e1, he1⟩ := execStmt_heap_extends st s st1 (hall s (by simp)) hex
      obtain ⟨e2, he2⟩ := ih st1 (fun x hx => hall x (by simp [hx]))
      exact ⟨e1 ++ e2, by rw [he2, he1, List.append_assoc]⟩

theorem genGroupBy_no_mut (g : Option (List String)) (cols : List IRColumn)
    (df : String) : ∀ s ∈ (genGroupBy g cols df).1, isMutStmt s = false := by
  intro s hs
  rw [genGroupBy] at hs
  dsimp only at hs
  repeat' split at hs
  all_goals
    first
    | ((try dsimp only at hs);
       (try simp only [List.mem_cons, List.not_mem_nil, or_false] at hs);
       subst hs; rfl)
    | simp at hs

theorem generate_no_mut (ir : IR) (avail : List String)
    (hjoins : ir.fromC.joins = []) (hset : ir.setOps = []) :
    ∀ s ∈ generate ir avail, isMutStmt s = false := by
  obtain ⟨distinct, columns, fromC, filters, groupByC, havingC, ordering,
    limitC, setOps⟩ := ir
  replace hjoins : fromC.joins = [] := hjoins
  replace hset : setOps = [] := hset
  subst hset
  intro s hs
  rw [generate] at hs
  split at hs
  · simp only [List.mem_cons, List.not_mem_nil, or_false] at hs
    rcases hs with rfl | rfl | rfl <;> rfl
  · rw [hjoins] at hs
    dsimp only at hs
    simp only [List.append_assoc, List.mem_append] at hs
    rcases hs with hs | hs | hs | hs | hs | hs | hs | hs | hs | hs | hs | hs
    all_goals repeat' split at hs
    all_goals
      first
      | ((try dsimp only at hs);
         (try simp only [List.mem_cons, List.not_mem_nil, or_false] at hs);
         subst hs;
         first
         | rfl
         | (rw [genLimitStmt]; split <;> rfl))
      | ((try dsimp only at hs);
         (try simp only [List.mem_cons, List.not_mem_nil, or_false] at hs);
         rcases hs with rfl | rfl <;> rfl)
      | exact genGroupBy_no_mut _ _ _ s hs
      | (exfalso; apply absurd List.isEmpty_nil; assumption)
      | simp at hs

theorem callerTables_eq (data : List (String × Table)) (st : PyState)
    (hext : ∃ ext, st.heap = data.map (fun p => p.2) ++ ext) :
    (data.enum).map (fun p => (p.2.1, st.heap.getD p.1 ⟨[], []⟩)) = data := by
  obtain ⟨ext, hh⟩ := hext
  apply List.ext_getElem
  · simp
  · intro i h1 h2
    simp only [List.getElem_map, List.getElem_enum]
    have h3 : i < (data.map (fun p => p.2)).length := by simpa using h2
    have hgetd : st.heap.getD i ⟨[], []⟩ = data[i].2 := by
      rw [hh, List.getD_append _ _ _ _ h3, List.getD_eq_getElem _ _ h3]
      simp
    rw [hgetd]

theorem executeRun_snd (stmts : List Stmt) (data : List (String × Table)) :
    (executeRun stmts data).2 = initState data ∨
    (executeRun stmts data).2 = (execStmtsAcc stmts (initState data)).1 := by
  rw [executeRun]
  dsimp only
  cases validateData data stmts with
  | error e => exact Or.inl rfl
  | ok u =>
    right
    rcases hacc : execStmtsAcc stmts (initState data) with ⟨st1, err⟩
    dsimp only
    repeat' split
    all_goals rfl

/-- C2 (amended): a plan with no joins and no set operations never
mutates the caller's tables: after execution (successful or not), every
input binding still holds exactly the table it held before. The
counterexample shows that join plans do mutate inputs in place. -/
theorem c2_join_free_no_mutation (ir : IR) (data : List (String × Table))
    (hjoins : ir.fromC.joins = []) (hset : ir.setOps = []) :
    callerTablesAfter (generate ir (data.map (fun p => p.1))) data = data := by
  cases data with
  | nil => rfl
  | cons d0 ds =>
    have hall := generate_no_mut ir ((d0 :: ds).map (fun p => p.1)) hjoins hset
    rw [callerTablesAfter]
    apply callerTables_eq
    have hinit : (initState (d0 :: ds)).heap =
        (d0 :: ds).map (fun p => p.2) := rfl
    rcases executeRun_snd (generate ir ((d0 :: ds).map (fun p => p.1)))
        (d0 :: ds) with hsnd | hsnd
    · exact ⟨[], by rw [hsnd, hinit, List.append_nil]⟩
    · obtain ⟨ext, hext⟩ := execStmtsAcc_heap_extends
        (generate ir ((d0 :: ds).map (fun p => p.1)))
        (initState (d0 :: ds)) hall
      exact ⟨ext, by rw [hsnd, hext, hinit]⟩

/-- Counterexample for C2 as stated: the try/except join fallback of
`SELECT * FROM t JOIN u ON t.a = u.b` (join keys absent from both tables)
writes a `_temp_key` column into the right input table in place; the
caller's binding of `u` holds the widened table afterwards. -/
theorem c2_counterexample_join_mutates :
    ¬ (∀ (q : String) (data : List (String × Table)),
        (compileSQL q).map (fun ir =>
          callerTablesAfter (generate ir (data.map (fun p => p.1))) data) =
        .ok data) := by
  intro hclaim
  have h := hclaim "SELECT * FROM t JOIN u ON t.a = u.b"
    [("t", ⟨["x"], [[Cell.i 1]]⟩), ("u", ⟨["y"], [[Cell.i 2]]⟩)]
  rw [show (compileSQL "SELECT * FROM t JOIN u ON t.a = u.b").map (fun ir =>
      callerTablesAfter (generate ir
        ([("t", (⟨["x"], [[Cell.i 1]]⟩ : Table)),
          ("u", ⟨["y"], [[Cell.i 2]]⟩)].map (fun p => p.1)))
        [("t", ⟨["x"], [[Cell.i 1]]⟩), ("u", ⟨["y"], [[Cell.i 2]]⟩)]) =
      .ok [("t", ⟨["x"], [[Cell.i 1]]⟩),
           ("u", ⟨["y", "_temp_key"], [[Cell.i 2, Cell.i 1]]⟩)] from rfl] at h
  exact absurd (pureE_ok h) (by decide)

/-- Witness for C2 on the join-free plan of `SELECT * FROM t`. -/
theorem c2_join_free_no_mutation_witness :
    callerTablesAfter
      (generate (.mk false [⟨"*", none, none, none⟩] ⟨"t", none, []⟩
          none none none none none [])
        ([("t", (⟨["a"], [[Cell.i 7]]⟩ : Table))].map (fun p => p.1)))
      [("t", ⟨["a"], [[Cell.i 7]]⟩)] =
    [("t", ⟨["a"], [[Cell.i 7]]⟩)] :=
  c2_join_free_no_mutation
    (.mk false [⟨"*", none, none, none⟩] ⟨"t", none, []⟩
      none none none none none [])
    [("t", ⟨["a"], [[Cell.i 7]]⟩)] rfl rfl

/-! ### C4 — no recursion-depth bound on set-operation nesting -/

mutual
/-- Nesting depth of set-operation right queries in a plan. -/
def irDepth : IR → Nat
  | .mk _ _ _ _ _ _ _ _ sos => sosDepth sos

def sosDepth : List SetOpIR → Nat
  | [] => 0
  | .mk _ _ none :: rest => sosDepth rest
  | .mk _ _ (some rq) :: rest => max (irDepth rq + 1) (sosDepth rest)
end

/-- A UNION ALL tower of SELECT * plans, k levels deep. -/
def nestIR : Nat → IR
  | 0 => .mk false [⟨"*", none, none, none⟩] ⟨"t", none, []⟩
      none none none none none []
  | k + 1 => .mk false [⟨"*", none, none, none⟩] ⟨"t", none, []⟩
      none none none none none [.mk "UNION" true (some (nestIR k))]

theorem irDepth_nestIR (k : Nat) : irDepth (nestIR k) = k := by
  induction k with
  | zero => rfl
  | succ k ih => simp [nestIR, irDepth, sosDepth, ih]

/-- The generated statements of the base SELECT * plan. -/
def topA : List Stmt :=
  [Stmt.comment, Stmt.importNumpy, Stmt.copyAssign "result" "t",
   Stmt.assign "result" "result"]

/-- The inlined (comment-stripped, result-renamed) statements of a level-k
right query. -/
def bodyS : Nat → List Stmt
  | 0 => [Stmt.importNumpy, Stmt.copyAssign "right_query_0" "t",
          Stmt.assign "right_query_0" "result"]
  | k + 1 =>
    [Stmt.importNumpy, Stmt.copyAssign "right_query_0" "t",
     Stmt.assign "right_query_0" "result"] ++ bodyS k ++
    [Stmt.concatStmt "right_query_0" "result" "right_query_0" false]

/-- The full generated program of the level-k tower. -/
def topS : Nat → List Stmt
  | 0 => topA
  | k + 1 => topA ++ [Stmt.comment] ++ bodyS k ++
      [Stmt.concatStmt "result" "result" "right_query_0" false]

theorem bodyS_stable (k : Nat) :
    (bodyS k).filter (fun s => ¬ isCommentStmt s) = bodyS k ∧
    (bodyS k).map (renameResult "right_query_0") = bodyS k := by
  induction k with
  | zero => exact ⟨rfl, rfl⟩
  | succ k ih =>
    constructor
    · rw [bodyS, List.filter_append, List.filter_append, ih.1]
      rfl
    · rw [bodyS, List.map_append, List.map_append, ih.2]
      rfl

theorem generate_union_all (rq : IR) :
    generate (.mk false [⟨"*", none, none, none⟩] ⟨"t", none, []⟩
        none none none none none [.mk "UNION" true (some rq)]) ["t"] =
      [Stmt.comment, Stmt.importNumpy] ++ [Stmt.copyAssign "result" "t"] ++
        [] ++ [] ++ [] ++ [] ++ [Stmt.assign "result" "result"] ++ [] ++ [] ++
        [] ++
        ([Stmt.comment] ++
          (((generate rq ["t"]).filter (fun s => ¬ isCommentStmt s)).map
            (renameResult "right_query_0")) ++
          [Stmt.concatStmt "result" "result" "right_query_0" false] ++ []) ++
        [] := rfl

theorem nest_gen (k : Nat) :
    generate (nestIR k) ["t"] = topS k ∧
    ((generate (nestIR k) ["t"]).filter (fun s => ¬ isCommentStmt s)).map
      (renameResult "right_query_0") = bodyS k := by
  induction k with
  | zero => exact ⟨rfl, rfl⟩
  | succ k ih =>
    have h1 : generate (nestIR (k + 1)) ["t"] = topS (k + 1) := by
      rw [show nestIR (k + 1) = .mk false [⟨"*", none, none, none⟩]
          ⟨"t", none, []⟩ none none none none none
          [.mk "UNION" true (some (nestIR k))] from rfl]
      rw [generate_union_all (nestIR k), ih.2]
      simp [topS, topA, List.append_assoc]
    refine ⟨h1, ?_⟩
    rw [h1, topS]
    rw [List.filter_append, List.filter_append, List.filter_append,
        (bodyS_stable k).1]
    rw [List.map_append, List.map_append, List.map_append,
        (bodyS_stable k).2]
    rw [bodyS]
    rfl

theorem refCols_bodyS (k : Nat) : referencedColumns (bodyS k) = [] := by
  induction k with
  | zero => rfl
  | succ k ih =>
    have ih' : (bodyS k).flatMap stmtRefCols = [] := ih
    simp [bodyS, referencedColumns, stmtRefCols, ih']

theorem refCols_topS (k : Nat) : referencedColumns (topS k) = [] := by
  cases k with
  | zero => rfl
  | succ k =>
    have h' : (bodyS k).flatMap stmtRefCols = [] := refCols_bodyS k
    simp [topS, topA, referencedColumns, stmtRefCols, h']

/-- The single concrete dataset used for the C4 executions. -/
def t0Table : Table := ⟨["a"], [[Cell.i 1]]⟩

theorem validate_topS (k : Nat) :
    validateData [("t", t0Table)] (topS k) = .ok () := by
  rw [validateData]
  rw [if_neg (by decide)]
  rw [show List.find? (fun (p : String × Table) => p.2.isEmptyT)
      [("t", t0Table)] = none from rfl]
  try dsimp only
  rw [refCols_topS k]
  rw [if_neg (by decide)]

theorem find?_dictInsert_self {α : Type} (n : String) (b : α)
    (e : List (String × α)) :
    (dictInsert n b e).find? (fun p => p.1 = n) = some (n, b) := by
  induction e with
  | nil => simp [dictInsert]
  | cons p rest ih =>
    rw [dictInsert]
    split
    · rw [List.find?_cons_of_pos _ (by simp)]
    · rename_i hp
      rw [List.find?_cons_of_neg _ (by simpa using hp)]
      exact ih

theorem find?_dictInsert_ne {α : Type} {n m : String} (b : α)
    (e : List (String × α)) (h : ¬ m = n) :
    (dictInsert n b e).find? (fun p => p.1 = m) =
      e.find? (fun p => p.1 = m) := by
  induction e with
  | nil =>
    rw [dictInsert]
    rw [List.find?_cons_of_neg _ (by simpa using Ne.symm h)]
  | cons p rest ih =>
    rw [dictInsert]
    split
    · rename_i hp
      rw [List.find?_cons_of_neg _ (by simpa using Ne.symm h),
          List.find?_cons_of_neg _ (by simpa [hp] using Ne.symm h)]
    · by_cases hm : p.1 = m
      · rw [List.find?_cons_of_pos _ (by simpa using hm),
            List.find?_cons_of_pos _ (by simpa using hm)]
      · rw [List.find?_cons_of_neg _ (by simpa using hm),
            List.find?_cons_of_neg _ (by simpa using hm)]
        exact ih

theorem envGet_bindNew_self (st : PyState) (n : String) (t : Table) :
    envGet (bindNew st n t) n = some (.addr st.heap.length) := by
  simp [envGet, bindNew, find?_dictInsert_self]

theorem envGet_bindNew_ne (st : PyState) {n m : String} (t : Table)
    (h : ¬ m = n) : envGet (bindNew st n t) m = envGet st m := by
  simp [envGet, bindNew, find?_dictInsert_ne _ _ h]

theorem envGet_envSet_self (st : PyState) (n : String) (b : Binding) :
    envGet (envSet st n b) n = some b := by
  simp [envGet, envSet, find?_dictInsert_self]

theorem envGet_envSet_ne (st : PyState) {n m : String} (b : Binding)
    (h : ¬ m = n) : envGet (envSet st n b) m = envGet st m := by
  simp [envGet, envSet, find?_dictInsert_ne _ _ h]

theorem getTable_intro {st : PyState} {n : String} {a : Nat} {T : Table}
    (h1 : envGet st n = some (.addr a)) (h2 : st.heap.get? a = some T) :
    getTable st n = .ok (a, T) := by
  rw [getTable, h1]
  dsimp only
  rw [h2]

theorem get?_append_left' {l l' : List Table} {i : Nat} {T : Table}
    (h : l.get? i = some T) : (l ++ l').get? i = some T := by
  rw [List.get?_append]
  · exact h
  · exact (List.get?_eq_some.1 h).1

theorem execStmt_copyAssign {st : PyState} {a : Nat} {T : Table}
    (dst src : String) (hget : getTable st src = .ok (a, T)) :
    execStmt st (.copyAssign dst src) = .ok (bindNew st dst T) := by
  simp only [execStmt]
  rw [hget]
  rfl

theorem execStmt_assign {st : PyState} {b : Binding} (dst src : String)
    (hsrc : envGet st src = some b) :
    execStmt st (.assign dst src) = .ok (envSet st dst b) := by
  simp only [execStmt]
  rw [hsrc]

theorem execStmt_concat {st : PyState} {la ra : Nat} {tl tr : Table}
    (dst l r : String) (hl : getTable st l = .ok (la, tl))
    (hr : getTable st r = .ok (ra, tr)) :
    execStmt st (.concatStmt dst l r false) =
      .ok (bindNew st dst (pdConcat tl tr)) := by
  simp only [execStmt, hl, hr]
  rfl

theorem execStmtsAcc_append (xs ys : List Stmt) (st : PyState) :
    execStmtsAcc (xs ++ ys) st =
      match execStmtsAcc xs st with
      | (st1, none) => execStmtsAcc ys st1
      | (st1, some e) => (st1, some e) := by
  induction xs generalizing st with
  | nil => rfl
  | cons s rest ih =>
    rw [List.cons_append, execStmtsAcc, execStmtsAcc]
    cases execStmt st s with
    | error e => rfl
    | ok st1 => exact ih st1

theorem bodyRun (k : Nat) :
    ∀ (st : PyState) (a r : Nat) (T R : Table),
      envGet st "t" = some (.addr a) → st.heap.get? a = some T →
      envGet st "result" = some (.addr r) → st.heap.get? r = some R →
      ∃ (st' : PyState) (q : Nat) (Q : Table) (ext : List Table),
        execStmtsAcc (bodyS k) st = (st', none) ∧
        st'.heap = st.heap ++ ext ∧
        envGet st' "t" = some (.addr a) ∧
        envGet st' "result" = some (.addr r) ∧
        envGet st' "right_query_0" = some (.addr q) ∧
        st'.heap.get? q = some Q := by
  induction k with
  | zero =>
    intro st a r T R hT hTa hR hRa
    have e2 : execStmt st (.copyAssign "right_query_0" "t") =
        .ok (bindNew st "right_query_0" T) :=
      execStmt_copyAssign _ _ (getTable_intro hT hTa)
    have hR1 : envGet (bindNew st "right_query_0" T) "result" =
        some (.addr r) := by
      rw [envGet_bindNew_ne st T
        (show ¬ "result" = "right_query_0" by decide)]
      exact hR
    have e3 : execStmt (bindNew st "right_query_0" T)
        (.assign "right_query_0" "result") =
        .ok (envSet (bindNew st "right_query_0" T) "right_query_0"
          (.addr r)) :=
      execStmt_assign _ _ hR1
    refine ⟨envSet (bindNew st "right_query_0" T) "right_query_0" (.addr r),
      r, R, [T], ?_, rfl, ?_, ?_, ?_, ?_⟩
    · have hstep1 : execStmt st Stmt.importNumpy = Except.ok st := rfl
      simp only [bodyS, execStmtsAcc, hstep1, e2, e3]
    · rw [envGet_envSet_ne _ _ (show ¬ "t" = "right_query_0" by decide),
          envGet_bindNew_ne st T (show ¬ "t" = "right_query_0" by decide)]
      exact hT
    · rw [envGet_envSet_ne _ _ (show ¬ "result" = "right_query_0" by decide)]
      exact hR1
    · exact envGet_envSet_self _ _ _
    · show (st.heap ++ [T]).get? r = some R
      exact get?_append_left' hRa
  | succ k ih =>
    intro st a r T R hT hTa hR hRa
    have e2 : execStmt st (.copyAssign "right_query_0" "t") =
        .ok (bindNew st "right_query_0" T) :=
      execStmt_copyAssign _ _ (getTable_intro hT hTa)
    have hR1 : envGet (bindNew st "right_query_0" T) "result" =
        some (.addr r) := by
      rw [envGet_bindNew_ne st T
        (show ¬ "result" = "right_query_0" by decide)]
      exact hR
    have e3 : execStmt (bindNew st "right_query_0" T)
        (.assign "right_query_0" "result") =
        .ok (envSet (bindNew st "right_query_0" T) "right_query_0"
          (.addr r)) :=
      execStmt_assign _ _ hR1
    have hpre : execStmtsAcc [Stmt.importNumpy,
        Stmt.copyAssign "right_query_0" "t",
        Stmt.assign "right_query_0" "result"] st =
        (envSet (bindNew st "right_query_0" T) "right_query_0" (.addr r),
          none) := by
      have hstep1 : execStmt st Stmt.importNumpy = Except.ok st := rfl
      simp only [execStmtsAcc, hstep1, e2, e3]
    have h2T : envGet (envSet (bindNew st "right_query_0" T) "right_query_0"
        (.addr r)) "t" = some (.addr a) := by
      rw [envGet_envSet_ne _ _ (show ¬ "t" = "right_query_0" by decide),
          envGet_bindNew_ne st T (show ¬ "t" = "right_query_0" by decide)]
      exact hT
    have h2Ta : (envSet (bindNew st "right_query_0" T) "right_query_0"
        (.addr r)).heap.get? a = some T := by
      show (st.heap ++ [T]).get? a = some T
      exact get?_append_left' hTa
    have h2R : envGet (envSet (bindNew st "right_query_0" T) "right_query_0"
        (.addr r)) "result" = some (.addr r) := by
      rw [envGet_envSet_ne _ _ (show ¬ "result" = "right_query_0" by decide)]
      exact hR1
    have h2Ra : (envSet (bindNew st "right_query_0" T) "right_query_0"
        (.addr r)).heap.get? r = some R := by
      show (st.heap ++ [T]).get? r = some R
      exact get?_append_left' hRa
    obtain ⟨st3, q, Q, ext, hrun3, hheap3, h3T, h3R, h3q, h3Q⟩ :=
      ih _ a r T R h2T h2Ta h2R h2Ra
    have h3Ra : st3.heap.get? r = some R := by
      rw [hheap3]
      exact get?_append_left' h2Ra
    have hgR : getTable st3 "result" = .ok (r, R) := getTable_intro h3R h3Ra
    have hgQ : getTable st3 "right_query_0" = .ok (q, Q) :=
      getTable_intro h3q h3Q
    have econ : execStmt st3 (.concatStmt "right_query_0" "result"
        "right_query_0" false) =
        .ok (bindNew st3 "right_query_0" (pdConcat R Q)) :=
      execStmt_concat _ _ _ hgR hgQ
    refine ⟨bindNew st3 "right_query_0" (pdConcat R Q), st3.heap.length,
      pdConcat R Q, [T] ++ ext ++ [pdConcat R Q], ?_, ?_, ?_, ?_, ?_, ?_⟩
    · rw [bodyS]
      rw [execStmtsAcc_append, execStmtsAcc_append, hpre]
      dsimp only
      rw [hrun3]
      dsimp only
      simp only [execStmtsAcc, econ]
    · rw [show (bindNew st3 "right_query_0" (pdConcat R Q)).heap =
          st3.heap ++ [pdConcat R Q] from rfl, hheap3]
      show ((st.heap ++ [T]) ++ ext) ++ [pdConcat R Q] =
        st.heap ++ ([T] ++ ext ++ [pdConcat R Q])
      simp [List.append_assoc]
    · rw [envGet_bindNew_ne st3 _ (show ¬ "t" = "right_query_0" by decide)]
      exact h3T
    · rw [envGet_bindNew_ne st3 _
        (show ¬ "result" = "right_query_0" by decide)]
      exact h3R
    · exact envGet_bindNew_self _ _ _
    · show (st3.heap ++ [pdConcat R Q]).get? st3.heap.length =
        some (pdConcat R Q)
      exact List.get?_concat_length _ _

/-- The state after the shared program prefix (the base plan plus the
set-operation header comment) on the one-table dataset. -/
def stA : PyState :=
  ⟨[t0Table, t0Table], [("result", Binding.addr 1), ("df", Binding.addr 0),
    ("t", Binding.addr 0)]⟩

theorem nestIR_executes (k : Nat) :
    ∃ Q : Table, execute (generate (nestIR k) ["t"]) [("t", t0Table)] =
      .ok Q := by
  rw [(nest_gen k).1]
  cases k with
  | zero => exact ⟨t0Table, rfl⟩
  | succ k =>
    have hpre : execStmtsAcc (topA ++ [Stmt.comment])
        (initState [("t", t0Table)]) = (stA, none) := rfl
    have hAt : envGet stA "t" = some (.addr 0) := rfl
    have hATa : stA.heap.get? 0 = some t0Table := rfl
    have hAr : envGet stA "result" = some (.addr 1) := rfl
    have hARa : stA.heap.get? 1 = some t0Table := rfl
    obtain ⟨st3, q, Q, ext, hrun3, hheap3, h3T, h3R, h3q, h3Q⟩ :=
      bodyRun k stA 0 1 t0Table t0Table hAt hATa hAr hARa
    have h3Ra : st3.heap.get? 1 = some t0Table := by
      rw [hheap3]
      exact get?_append_left' hARa
    have hgR : getTable st3 "result" = .ok (1, t0Table) :=
      getTable_intro h3R h3Ra
    have hgQ : getTable st3 "right_query_0" = .ok (q, Q) :=
      getTable_intro h3q h3Q
    have econ : execStmt st3 (.concatStmt "result" "result"
        "right_query_0" false) =
        .ok (bindNew st3 "result" (pdConcat t0Table Q)) :=
      execStmt_concat _ _ _ hgR hgQ
    have hacc : execStmtsAcc (topS (k + 1)) (initState [("t", t0Table)]) =
        (bindNew st3 "result" (pdConcat t0Table Q), none) := by
      rw [topS]
      rw [execStmtsAcc_append, execStmtsAcc_append, hpre]
      dsimp only
      rw [hrun3]
      dsimp only
      simp only [execStmtsAcc, econ]
    have hresF : envGet (bindNew st3 "result" (pdConcat t0Table Q))
        "result" = some (.addr st3.heap.length) :=
      envGet_bindNew_self _ _ _
    have hheapF : (bindNew st3 "result" (pdConcat t0Table Q)).heap.get?
        st3.heap.length = some (pdConcat t0Table Q) := by
      show (st3.heap ++ [pdConcat t0Table Q]).get? st3.heap.length =
        some (pdConcat t0Table Q)
      exact List.get?_concat_length _ _
    have hrun : executeRun (topS (k + 1)) [("t", t0Table)] =
        (.ok (pdConcat t0Table Q),
          bindNew st3 "result" (pdConcat t0Table Q)) := by
      rw [executeRun]
      dsimp only
      rw [validate_topS (k + 1)]
      dsimp only
      rw [hacc]
      dsimp only
      rw [hresF]
      dsimp only
      rw [hheapF]
    refine ⟨pdConcat t0Table Q, ?_⟩
    show (executeRun (topS (k + 1)) [("t", t0Table)]).1 = _
    rw [hrun]

/-- C4: the spec claims a recursion-depth bound d past which nested
set-operation plans fail with an execution error. The code has no such
bound: for every candidate bound d there is a plan (a UNION ALL tower of
depth d + 1) whose generated program executes successfully on a one-row
dataset. -/
theorem c4_no_recursion_depth_bound :
    ∀ d : Nat, ∃ ir : IR, d < irDepth ir ∧
      ∃ Q : Table, execute (generate ir ["t"]) [("t", t0Table)] = .ok Q :=
  fun d =>
    ⟨nestIR (d + 1), by rw [irDepth_nestIR]; omega, nestIR_executes (d + 1)⟩

/-- C4 counterexample: there is no depth bound d such that every plan
nested deeper than d fails; the UNION ALL tower of depth d + 1 succeeds. -/
theorem c4_counterexample_unbounded_nesting :
    ¬ ∃ d : Nat, ∀ ir : IR, d < irDepth ir →
      ∀ Q : Table, execute (generate ir ["t"]) [("t", t0Table)] ≠ .ok Q := by
  rintro ⟨d, hall⟩
  obtain ⟨Q, hQ⟩ := nestIR_executes (d + 1)
  exact hall (nestIR (d + 1)) (by rw [irDepth_nestIR]; omega) Q hQ

/-! ### C6 — ORDER BY is a stable multi-key sort -/

/-- The comparison-operator spellings of a parsed condition's leaves. -/
def condCmpOps : Cond → List String
  | .logical l _ r => condCmpOps l ++ condCmpOps r
  | .cmp _ op _ => [op]

/-- The comparison-operator tags of an IR condition's leaves. -/
def condIRCmpOps : CondIR → List String
  | .logical _ l r => condIRCmpOps l ++ condIRCmpOps r
  | .cmp _ op _ _ => [op]

/-- The operator spellings parse_basic_condition can store in a comparison:
the fixed word-operator strings it builds itself, and the relational
operator token lexemes. -/
def parserSpellings : List String :=
  ["=", "!=", "<>", "<", ">", "<=", ">=", "IN", "NOT IN", "LIKE", "NOT LIKE",
   "BETWEEN", "NOT BETWEEN", "IS NULL", "IS NOT NULL"]

/-- The canonical operator tags of the IR. -/
def canonicalOperators : List String :=
  ["eq", "ne", "lt", "gt", "le", "ge", "in", "not_in", "like", "not_like",
   "between", "not_between", "is_null", "is_not_null"]

/-- The lexeme of each relational operator token the lexer can emit. -/
def relValueOk (tok : Token) : Prop :=
  (tok.type = .opEQUALS → tok.value = "=") ∧
  (tok.type = .opNOT_EQUALS → tok.value = "!=" ∨ tok.value = "<>") ∧
  (tok.type = .opLESS_THAN → tok.value = "<") ∧
  (tok.type = .opGREATER_THAN → tok.value = ">") ∧
  (tok.type = .opLESS_EQUAL → tok.value = "<=") ∧
  (tok.type = .opGREATER_EQUAL → tok.value = ">=")

/-- All comparison leaves of a condition carry a parser spelling. -/
def CondSpellOk : Cond → Prop
  | .logical l _ r => CondSpellOk l ∧ CondSpellOk r
  | .cmp _ op _ => op ∈ parserSpellings

theorem normalizeOperator_mem (op : String) (h : op ∈ parserSpellings) :
    normalizeOperator op ∈ canonicalOperators := by
  fin_cases h <;> decide

theorem condSpellOk_irOps (c : Cond) (h : CondSpellOk c) :
    ∀ op ∈ condIRCmpOps (processCondRec c), op ∈ canonicalOperators := by
  induction c with
  | logical l o r ihl ihr =>
    intro op hop
    rw [CondSpellOk] at h
    rw [processCondRec, condIRCmpOps, List.mem_append] at hop
    exact hop.elim (ihl h.1 op) (ihr h.2 op)
  | cmp col o rhs =>
    intro op hop
    rw [processCondRec, condIRCmpOps, List.mem_singleton] at hop
    exact hop ▸ normalizeOperator_mem o h

theorem condSpellOk_ops (c : Cond) (h : CondSpellOk c) :
    ∀ op ∈ condCmpOps c, op ∈ parserSpellings := by
  induction c with
  | logical l o r ihl ihr =>
    intro op hop
    rw [CondSpellOk] at h
    rw [condCmpOps, List.mem_append] at hop
    exact hop.elim (ihl h.1 op) (ihr h.2 op)
  | cmp col o rhs =>
    intro op hop
    rw [condCmpOps, List.mem_singleton] at hop
    exact hop ▸ h

/-- Every condition any of the condition-parsing functions returns has all
its comparison leaves spelled from `parserSpellings`, provided relational
operator tokens carry their lexer lexemes. -/
theorem parseSpell (fuel : Nat) :
    (∀ ts pos c p, (∀ tok ∈ ts, relValueOk tok) →
      parseCondition ts fuel pos = .ok (c, p) → CondSpellOk c) ∧
    (∀ ts pos c p, (∀ tok ∈ ts, relValueOk tok) →
      parseOrCondition ts fuel pos = .ok (c, p) → CondSpellOk c) ∧
    (∀ ts acc pos c p, (∀ tok ∈ ts, relValueOk tok) → CondSpellOk acc →
      parseOrLoop ts fuel acc pos = .ok (c, p) → CondSpellOk c) ∧
    (∀ ts pos c p, (∀ tok ∈ ts, relValueOk tok) →
      parseAndCondition ts fuel pos = .ok (c, p) → CondSpellOk c) ∧
    (∀ ts acc pos c p, (∀ tok ∈ ts, relValueOk tok) → CondSpellOk acc →
      parseAndLoop ts fuel acc pos = .ok (c, p) → CondSpellOk c) ∧
    (∀ ts pos c p, (∀ tok ∈ ts, relValueOk tok) →
      parseBasicCondition ts fuel pos = .ok (c, p) → CondSpellOk c) ∧
    (∀ ts isNot pos c p, (∀ tok ∈ ts, relValueOk tok) →
      parseBasicCmp ts fuel isNot pos = .ok (c, p) → CondSpellOk c) := by
  induction fuel with
  | zero =>
    exact ⟨fun _ _ _ _ _ h => Except.noConfusion h,
           fun _ _ _ _ _ h => Except.noConfusion h,
           fun _ _ _ _ _ _ _ h => Except.noConfusion h,
           fun _ _ _ _ _ h => Except.noConfusion h,
           fun _ _ _ _ _ _ _ h => Except.noConfusion h,
           fun _ _ _ _ _ h => Except.noConfusion h,
           fun _ _ _ _ _ _ h => Except.noConfusion h⟩
  | succ fuel ih =>
    obtain ⟨ihC, ihO, ihOL, ihA, ihAL, ihB, ihBC⟩ := ih
    refine ⟨?_, ?_, ?_, ?_, ?_, ?_, ?_⟩
    · intro ts pos c p hrel h
      rw [parseCondition] at h
      exact ihO ts pos c p hrel h
    · intro ts pos c p hrel h
      rw [parseOrCondition] at h
      obtain ⟨⟨c1, p1⟩, h1, h2⟩ := bindE_ok h
      exact ihOL ts c1 p1 c p hrel (ihA ts pos c1 p1 hrel h1) h2
    · intro ts acc pos c p hrel hacc h
      rw [parseOrLoop] at h
      cases hct : curTok ts pos with
      | none =>
        rw [hct] at h
        simp only [Except.ok.injEq, Prod.mk.injEq] at h
        exact h.1 ▸ hacc
      | some t =>
        rw [hct] at h
        dsimp only at h
        by_cases hor : t.type = Tk.kwOR
        · rw [if_pos hor] at h
          obtain ⟨⟨opTok, p1⟩, h1, h⟩ := bindE_ok h
          obtain ⟨⟨nxt, p2⟩, h2, h⟩ := bindE_ok h
          exact ihOL ts (.logical acc opTok.value nxt) p2 c p hrel
            ⟨hacc, ihA ts p1 nxt p2 hrel h2⟩ h
        · rw [if_neg hor] at h
          simp only [Except.ok.injEq, Prod.mk.injEq] at h
          exact h.1 ▸ hacc
    · intro ts pos c p hrel h
      rw [parseAndCondition] at h
      obtain ⟨⟨c1, p1⟩, h1, h2⟩ := bindE_ok h
      exact ihAL ts c1 p1 c p hrel (ihB ts pos c1 p1 hrel h1) h2
    · intro ts acc pos c p hrel hacc h
      rw [parseAndLoop] at h
      cases hct : curTok ts pos with
      | none =>
        rw [hct] at h
        simp only [Except.ok.injEq, Prod.mk.injEq] at h
        exact h.1 ▸ hacc
      | some t =>
        rw [hct] at h
        dsimp only at h
        by_cases hand : t.type = Tk.kwAND
        · rw [if_pos hand] at h
          obtain ⟨⟨opTok, p1⟩, h1, h⟩ := bindE_ok h
          obtain ⟨⟨nxt, p2⟩, h2, h⟩ := bindE_ok h
          exact ihAL ts (.logical acc opTok.value nxt) p2 c p hrel
            ⟨hacc, ihB ts p1 nxt p2 hrel h2⟩ h
        · rw [if_neg hand] at h
          simp only [Except.ok.injEq, Prod.mk.injEq] at h
          exact h.1 ▸ hacc
    · intro ts pos c p hrel h
      rw [parseBasicCondition] at h
      cases hct : curTok ts pos with
      | none =>
        rw [hct] at h
        dsimp only at h
        rw [hct] at h
        exact ihBC ts false pos c p hrel h
      | some t =>
        rw [hct] at h
        dsimp only at h
        by_cases hnot : t.type = Tk.kwNOT
        · rw [if_pos hnot] at h
          dsimp only at h
          cases hct2 : curTok ts (pos + 1) with
          | none =>
            rw [hct2] at h
            dsimp only at h
            exact ihBC ts true (pos + 1) c p hrel h
          | some t2 =>
            rw [hct2] at h
            dsimp only at h
            by_cases hlp : t2.type = Tk.pLPAREN
            · rw [if_pos hlp] at h
              obtain ⟨⟨_, p1⟩, h1, h⟩ := bindE_ok h
              obtain ⟨⟨c0, p2⟩, h2, h⟩ := bindE_ok h
              obtain ⟨⟨_, p3⟩, h3, h⟩ := bindE_ok h
              have hc : c0 = c := congrArg Prod.fst (pureE_ok h)
              have hs := ihC ts p1 c0 p2 hrel h2
              rwa [hc] at hs
            · rw [if_neg hlp] at h
              exact ihBC ts true (pos + 1) c p hrel h
        · rw [if_neg hnot] at h
          dsimp only at h
          rw [hct] at h
          dsimp only at h
          by_cases hlp : t.type = Tk.pLPAREN
          · rw [if_pos hlp] at h
            obtain ⟨⟨_, p1⟩, h1, h⟩ := bindE_ok h
            obtain ⟨⟨c0, p2⟩, h2, h⟩ := bindE_ok h
            obtain ⟨⟨_, p3⟩, h3, h⟩ := bindE_ok h
            have hc : c0 = c := congrArg Prod.fst (pureE_ok h)
            have hs := ihC ts p1 c0 p2 hrel h2
            rwa [hc] at hs
          · rw [if_neg hlp] at h
            exact ihBC ts false pos c p hrel h
    · intro ts isNot pos c p hrel h
      rw [parseBasicCmp] at h
      obtain ⟨⟨left, p1⟩, h1, h⟩ := bindE_ok h
      dsimp only at h
      obtain ⟨⟨left2, p2⟩, h2, h⟩ := bindE_ok h
      dsimp only at h
      cases hct : curTok ts p2 with
      | none => rw [hct] at h; exact Except.noConfusion h
      | some opTok =>
        rw [hct] at h
        dsimp only at h
        by_cases hin : opTok.type = Tk.kwIN
        · rw [if_pos hin] at h
          obtain ⟨⟨_, q1⟩, _, h⟩ := bindE_ok h
          obtain ⟨⟨_, q2⟩, _, h⟩ := bindE_ok h
          obtain ⟨⟨v, q3⟩, _, h⟩ := bindE_ok h
          obtain ⟨⟨vs, q4⟩, _, h⟩ := bindE_ok h
          obtain ⟨⟨_, q5⟩, _, h⟩ := bindE_ok h
          have hc : Cond.cmp left2 (if isNot then "NOT IN" else "IN") (.list (v :: vs)) = c :=
            congrArg Prod.fst (pureE_ok h)
          rw [← hc]
          cases isNot
          · show "IN" ∈ parserSpellings
            decide
          · show "NOT IN" ∈ parserSpellings
            decide
        · rw [if_neg hin] at h
          by_cases hlk : opTok.type = Tk.kwLIKE
          · rw [if_pos hlk] at h
            obtain ⟨⟨_, q1⟩, _, h⟩ := bindE_ok h
            obtain ⟨⟨v, q2⟩, _, h⟩ := bindE_ok h
            have hc : Cond.cmp left2 (if isNot then "NOT LIKE" else "LIKE") (.val v) = c :=
              congrArg Prod.fst (pureE_ok h)
            rw [← hc]
            cases isNot
            · show "LIKE" ∈ parserSpellings
              decide
            · show "NOT LIKE" ∈ parserSpellings
              decide
          · rw [if_neg hlk] at h
            by_cases hbt : opTok.type = Tk.kwBETWEEN
            · rw [if_pos hbt] at h
              obtain ⟨⟨_, q1⟩, _, h⟩ := bindE_ok h
              obtain ⟨⟨v1, q2⟩, _, h⟩ := bindE_ok h
              obtain ⟨⟨_, q3⟩, _, h⟩ := bindE_ok h
              obtain ⟨⟨v2, q4⟩, _, h⟩ := bindE_ok h
              have hc : Cond.cmp left2 (if isNot then "NOT BETWEEN" else "BETWEEN")
                                  (.list [v1, v2]) = c :=
                congrArg Prod.fst (pureE_ok h)
              rw [← hc]
              cases isNot
              · show "BETWEEN" ∈ parserSpellings
                decide
              · show "NOT BETWEEN" ∈ parserSpellings
                decide
            · rw [if_neg hbt] at h
              by_cases his : opTok.type = Tk.kwIS
              · rw [if_pos his] at h
                obtain ⟨⟨_, q1⟩, _, h⟩ := bindE_ok h
                cases hct2 : curTok ts q1 with
                | none =>
                  rw [hct2] at h
                  dsimp only at h
                  obtain ⟨⟨_, q2⟩, _, h⟩ := bindE_ok h
                  have hc : Cond.cmp left2 "IS NULL" .null = c :=
                    congrArg Prod.fst (pureE_ok h)
                  rw [← hc]
                  show "IS NULL" ∈ parserSpellings
                  decide
                | some t2 =>
                  rw [hct2] at h
                  dsimp only at h
                  by_cases hn2 : t2.type = Tk.kwNOT
                  · rw [if_pos hn2] at h
                    dsimp only at h
                    obtain ⟨⟨_, q2⟩, _, h⟩ := bindE_ok h
                    have hc : Cond.cmp left2 "IS NOT NULL" .null = c :=
                      congrArg Prod.fst (pureE_ok h)
                    rw [← hc]
                    show "IS NOT NULL" ∈ parserSpellings
                    decide
                  · rw [if_neg hn2] at h
                    dsimp only at h
                    obtain ⟨⟨_, q2⟩, _, h⟩ := bindE_ok h
                    have hc : Cond.cmp left2 "IS NULL" .null = c :=
                      congrArg Prod.fst (pureE_ok h)
                    rw [← hc]
                    show "IS NULL" ∈ parserSpellings
                    decide
              · rw [if_neg his] at h
                by_cases hro : isRelOpTk opTok.type = true
                · rw [if_pos hro] at h
                  obtain ⟨⟨_, q1⟩, _, h⟩ := bindE_ok h
                  obtain ⟨⟨v, q2⟩, _, h⟩ := bindE_ok h
                  have hc : Cond.cmp left2
                      (if isNot ∧ opTok.value = "=" then "!=" else opTok.value)
                      (.val v) = c :=
                    congrArg Prod.fst (pureE_ok h)
                  rw [← hc]
                  by_cases hne : (isNot : Prop) ∧ opTok.value = "="
                  · rw [if_pos hne]
                    show "!=" ∈ parserSpellings
                    decide
                  · rw [if_neg hne]
                    have hmem : opTok ∈ ts := List.get?_mem hct
                    have hv := hrel opTok hmem
                    show opTok.value ∈ parserSpellings
                    simp only [isRelOpTk, decide_eq_true_eq] at hro
                    rcases hro with h6 | h6 | h6 | h6 | h6 | h6
                    · rw [hv.1 h6]; decide
                    · rcases hv.2.1 h6 with h7 | h7 <;> rw [h7] <;> decide
                    · rw [hv.2.2.1 h6]; decide
                    · rw [hv.2.2.2.1 h6]; decide
                    · rw [hv.2.2.2.2.1 h6]; decide
                    · rw [hv.2.2.2.2.2 h6]; decide
                · rw [if_neg hro] at h
                  exact Except.noConfusion h

/-- C5: operator normalization is total and canonical. The IR generator
maps each operator spelling the parser can produce to exactly its canonical
tag ('=' to eq, '!=' and '<>' to ne, '<' to lt, '>' to gt, '<=' to le,
'>=' to ge, IN to in, NOT IN to not_in, LIKE to like, NOT LIKE to not_like,
BETWEEN to between, NOT BETWEEN to not_between, IS NULL to is_null,
IS NOT NULL to is_not_null); every comparison leaf of a parsed condition is
spelled from that set (given lexer-shaped relational lexemes), so every
comparison leaf of the generated IR condition carries a canonical tag. -/
theorem c5_operator_normalization (ts : List Token) (fuel pos : Nat)
    (c : Cond) (p : Nat)
    (hlex : ∀ tok ∈ ts, relValueOk tok)
    (h : parseCondition ts fuel pos = .ok (c, p)) :
    (∀ op ∈ condCmpOps c, op ∈ parserSpellings) ∧
    (∀ op ∈ condIRCmpOps (processCondRec c), op ∈ canonicalOperators) ∧
    normalizeOperator "=" = "eq" ∧ normalizeOperator "!=" = "ne" ∧
    normalizeOperator "<>" = "ne" ∧ normalizeOperator "<" = "lt" ∧
    normalizeOperator ">" = "gt" ∧ normalizeOperator "<=" = "le" ∧
    normalizeOperator ">=" = "ge" ∧ normalizeOperator "IN" = "in" ∧
    normalizeOperator "NOT IN" = "not_in" ∧
    normalizeOperator "LIKE" = "like" ∧
    normalizeOperator "NOT LIKE" = "not_like" ∧
    normalizeOperator "BETWEEN" = "between" ∧
    normalizeOperator "NOT BETWEEN" = "not_between" ∧
    normalizeOperator "IS NULL" = "is_null" ∧
    normalizeOperator "IS NOT NULL" = "is_not_null" := by
  have hs := (parseSpell fuel).1 ts pos c p hlex h
  exact ⟨condSpellOk_ops c hs, condSpellOk_irOps c hs, rfl, rfl, rfl, rfl,
    rfl, rfl, rfl, rfl, rfl, rfl, rfl, rfl, rfl, rfl, rfl⟩

/-- Witness for C5 at the condition text `a <> 1 AND b IS NOT NULL`. -/
theorem c5_operator_normalization_witness :
    (∀ op ∈ condCmpOps (.logical (.cmp "a" "<>" (.val (.i 1))) "AND"
        (.cmp "b" "IS NOT NULL" .null)), op ∈ parserSpellings) ∧
    (∀ op ∈ condIRCmpOps (processCondRec
        (.logical (.cmp "a" "<>" (.val (.i 1))) "AND"
          (.cmp "b" "IS NOT NULL" .null))), op ∈ canonicalOperators) :=
  have hmain := c5_operator_normalization
    [⟨.litIDENTIFIER, "a", 1, 0⟩, ⟨.opNOT_EQUALS, "<>", 1, 0⟩,
     ⟨.litNUMBER, "1", 1, 0⟩, ⟨.kwAND, "AND", 1, 0⟩,
     ⟨.litIDENTIFIER, "b", 1, 0⟩, ⟨.kwIS, "IS", 1, 0⟩,
     ⟨.kwNOT, "NOT", 1, 0⟩, ⟨.kwNULL, "NULL", 1, 0⟩] 12 0
    (.logical (.cmp "a" "<>" (.val (.i 1))) "AND"
      (.cmp "b" "IS NOT NULL" .null)) 8 (by simp only [relValueOk]; decide) rfl
  ⟨hmain.1, hmain.2.1⟩

/-! ### C8 — boolean operator precedence in conditions -/

/-- The token list for a condition text of the form
`x = 1 OR y = 2 AND z = 3` (with arbitrary identifier lexemes). -/
def orAndTokens (x y z : String) : List Token :=
  [⟨.litIDENTIFIER, x, 1, 0⟩, ⟨.opEQUALS, "=", 1, 0⟩, ⟨.litNUMBER, "1", 1, 0⟩,
   ⟨.kwOR, "OR", 1, 0⟩,
   ⟨.litIDENTIFIER, y, 1, 0⟩, ⟨.opEQUALS, "=", 1, 0⟩, ⟨.litNUMBER, "2", 1, 0⟩,
   ⟨.kwAND, "AND", 1, 0⟩,
   ⟨.litIDENTIFIER, z, 1, 0⟩, ⟨.opEQUALS, "=", 1, 0⟩, ⟨.litNUMBER, "3", 1, 0⟩]

/-- Token list for `x = 1 AND y = 2 AND z = 3`. -/
def andAndTokens (x y z : String) : List Token :=
  [⟨.litIDENTIFIER, x, 1, 0⟩, ⟨.opEQUALS, "=", 1, 0⟩, ⟨.litNUMBER, "1", 1, 0⟩,
   ⟨.kwAND, "AND", 1, 0⟩,
   ⟨.litIDENTIFIER, y, 1, 0⟩, ⟨.opEQUALS, "=", 1, 0⟩, ⟨.litNUMBER, "2", 1, 0⟩,
   ⟨.kwAND, "AND", 1, 0⟩,
   ⟨.litIDENTIFIER, z, 1, 0⟩, ⟨.opEQUALS, "=", 1, 0⟩, ⟨.litNUMBER, "3", 1, 0⟩]

/-- Token list for `x = 1 OR y = 2 OR z = 3`. -/
def orOrTokens (x y z : String) : List Token :=
  [⟨.litIDENTIFIER, x, 1, 0⟩, ⟨.opEQUALS, "=", 1, 0⟩, ⟨.litNUMBER, "1", 1, 0⟩,
   ⟨.kwOR, "OR", 1, 0⟩,
   ⟨.litIDENTIFIER, y, 1, 0⟩, ⟨.opEQUALS, "=", 1, 0⟩, ⟨.litNUMBER, "2", 1, 0⟩,
   ⟨.kwOR, "OR", 1, 0⟩,
   ⟨.litIDENTIFIER, z, 1, 0⟩, ⟨.opEQUALS, "=", 1, 0⟩, ⟨.litNUMBER, "3", 1, 0⟩]

/-- C8: OR binds loosest and AND tighter, both left-associatively: parsing
`c1 OR c2 AND c3` yields an OR root whose right child is the AND node;
chains of the same connective fold to the left; and a parenthesized
subcondition recurses to the top of the condition grammar (parse_condition)
and then consumes the closing parenthesis. -/
theorem c8_or_and_precedence (x y z : String) (fuel : Nat) :
    parseCondition (orAndTokens x y z) (fuel + 12) 0 =
      .ok (.logical (.cmp x "=" (.val (.i 1))) "OR"
             (.logical (.cmp y "=" (.val (.i 2))) "AND"
                (.cmp z "=" (.val (.i 3)))), 11) ∧
    parseCondition (andAndTokens x y z) (fuel + 12) 0 =
      .ok (.logical (.logical (.cmp x "=" (.val (.i 1))) "AND"
              (.cmp y "=" (.val (.i 2)))) "AND"
             (.cmp z "=" (.val (.i 3))), 11) ∧
    parseCondition (orOrTokens x y z) (fuel + 12) 0 =
      .ok (.logical (.logical (.cmp x "=" (.val (.i 1))) "OR"
              (.cmp y "=" (.val (.i 2)))) "OR"
             (.cmp z "=" (.val (.i 3))), 11) ∧
    (∀ (v : String) (l c : Nat) (rest : List Token),
      parseBasicCondition (⟨.pLPAREN, v, l, c⟩ :: rest) (fuel + 1) 0 =
        (parseCondition (⟨.pLPAREN, v, l, c⟩ :: rest) fuel 1).bind fun r =>
          (consumeTk (⟨.pLPAREN, v, l, c⟩ :: rest) r.2 (some Tk.pRPAREN)).map
            fun r2 => (r.1, r2.2)) :=
  ⟨rfl, rfl, rfl, fun _ _ _ _ => rfl⟩

end SQL2Pandas
